import Mathlib

/-!
Declarative node-type registry with socket reconciliation

A shallow embedding of `source/blender/simulations/nodes/my_test_node.cc`, and of the
sync gate of `source/blender/gpencil_modifiers/intern/MOD_gpencillineart.c`.

Conventions of the embedding:

* C++ objects that are referred to through pointers or references are modelled
  by their values, and every mutating function returns the updated value.
* `bNodeSocketType` handles are compared by pointer in the C++; the host keeps
  one record per `idname`, so the handle is modelled by the record holding that
  `idname`.
* `uint` counters (`m_amount`, `offset`, `size()`) are natural numbers: the
  socket lists of a node are far below `2 ^ 32` entries.
* `void *storage` is `Option σ`, `none` being `nullptr` and `σ` the type of the
  blob it points to.
-/

namespace SimNodes

/-! ## Host records -/

/-- Socket direction, `eNodeSocketInOut`. -/
inductive eNodeSocketInOut where
  | SOCK_IN
  | SOCK_OUT
  deriving DecidableEq, Repr

/-- Host record `bNodeSocketType`, one per registered `idname`. -/
structure bNodeSocketType where
  idname : String
  deriving DecidableEq, Repr

/-- Host record `bNodeSocket`: the fields read or written by this file. -/
structure bNodeSocket where
  typeinfo : bNodeSocketType
  name : String
  identifier : String
  in_out : eNodeSocketInOut
  deriving DecidableEq, Repr

/-- Host record `bNodeType`: the fields read or written by this file. -/
structure bNodeType where
  idname : String
  storagename : String
  deriving DecidableEq, Repr

/-- Host record `bNode`: its kind, the two ordered socket lists and the storage pointer. -/
structure bNode (σ : Type) where
  typeinfo : bNodeType
  inputs : List bNodeSocket
  outputs : List bNodeSocket
  storage : Option σ

/-- Host record `bNodeTree`: the ordered list of its nodes. -/
structure bNodeTree (σ : Type) where
  nodes : List (bNode σ)

/-- Modelled from the spec: the host lookup `nodeSocketTypeFind` is not part of the
sources; the registry keeps one socket kind per `idname`, so the lookup yields the
record of that `idname`. -/
def nodeSocketTypeFind (idname : String) : bNodeSocketType :=
  { idname := idname }

/-- Modelled from the spec: the host operation `nodeAddSocket` is not part of the
sources; section 6 of the specification describes it as the operation that appends a
new socket of a given kind, identifier, name and direction to the node. -/
def nodeAddSocket {σ : Type} (node : bNode σ) (in_out : eNodeSocketInOut)
    (idname identifier name : String) : bNode σ :=
  let sock : bNodeSocket :=
    { typeinfo := nodeSocketTypeFind idname, name := name, identifier := identifier,
      in_out := in_out }
  match in_out with
  | .SOCK_IN => { node with inputs := node.inputs ++ [sock] }
  | .SOCK_OUT => { node with outputs := node.outputs ++ [sock] }

/-- Modelled from the spec: the host operation `nodeRemoveAllSockets` is not part of
the sources; section 6 of the specification describes it as the operation that removes
all sockets from a node. -/
def nodeRemoveAllSockets {σ : Type} (node : bNode σ) : bNode σ :=
  { node with inputs := [], outputs := [] }

/-! ## Socket data types -/

/-- Category of a socket data type, `SocketTypeCategory`. -/
inductive SocketTypeCategory where
  | Base
  | List
  deriving DecidableEq, Repr

/-- Class `SocketDataType`. -/
structure SocketDataType where
  m_ui_name : String
  m_socket_type : bNodeSocketType
  m_category : SocketTypeCategory
  deriving DecidableEq, Repr

/-- Method `SocketDataType::build`: adds one socket of this data type to the node. -/
def SocketDataType.build {σ : Type} (self : SocketDataType) (node : bNode σ)
    (in_out : eNodeSocketInOut) (identifier ui_name : String) : bNode σ :=
  nodeAddSocket node in_out self.m_socket_type.idname identifier ui_name

/-! ## Socket declarations -/

/-- Class `FixedTypeSocketDecl`, the only implementation of `SocketDecl`. The base
member `m_amount` is not a field: the only constructor passes `1` for it. -/
structure FixedTypeSocketDecl where
  m_in_out : eNodeSocketInOut
  m_type : SocketDataType
  m_ui_name : String
  m_identifier : String
  deriving DecidableEq, Repr

/-- The abstract class `SocketDecl` has a single implementation. -/
abbrev SocketDecl := FixedTypeSocketDecl

/-- Method `SocketDecl::amount`: `m_amount`, which the constructor of
`FixedTypeSocketDecl` sets to `1`. -/
def FixedTypeSocketDecl.amount (_self : FixedTypeSocketDecl) : Nat := 1

/-- Method `FixedTypeSocketDecl::sockets_are_correct`. -/
def FixedTypeSocketDecl.sockets_are_correct (self : FixedTypeSocketDecl)
    (sockets : List bNodeSocket) : Bool :=
  if sockets.length ≠ 1 then false
  else
    match sockets[0]? with
    | none => false
    | some socket =>
      if socket.typeinfo ≠ self.m_type.m_socket_type then false
      else if socket.name ≠ self.m_ui_name then false
      else if socket.identifier ≠ self.m_identifier then false
      else true

/-- Method `FixedTypeSocketDecl::build`. -/
def FixedTypeSocketDecl.build {σ : Type} (self : FixedTypeSocketDecl) (node : bNode σ) :
    bNode σ :=
  self.m_type.build node self.m_in_out self.m_identifier self.m_ui_name

/-! ## Node declarations -/

/-- Class `NodeDecl`: the declared inputs and outputs. The node it refers to is passed
to its methods. -/
structure NodeDecl where
  m_inputs : List SocketDecl
  m_outputs : List SocketDecl
  deriving DecidableEq, Repr

/-- Method `NodeDecl::build`: builds every input declaration, then every output
declaration. -/
def NodeDecl.build {σ : Type} (self : NodeDecl) (node : bNode σ) : bNode σ :=
  let node := self.m_inputs.foldl (fun n decl => decl.build n) node
  self.m_outputs.foldl (fun n decl => decl.build n) node

/-- The loop of the private `NodeDecl::sockets_are_correct (sockets_list, decls)`,
started at the running `offset`; the empty list of declarations is the code after the
loop. -/
def NodeDecl.sockets_are_correct_loop (sockets : List bNodeSocket) :
    List SocketDecl → Nat → Bool
  | [], offset => if offset ≠ sockets.length then false else true
  | decl :: decls, offset =>
    let amount := decl.amount
    if offset + amount > sockets.length then false
    else
      let sockets_for_decl := (sockets.drop offset).take amount
      if !decl.sockets_are_correct sockets_for_decl then false
      else NodeDecl.sockets_are_correct_loop sockets decls (offset + amount)

/-- Private method `NodeDecl::sockets_are_correct (sockets_list, decls)`. -/
def NodeDecl.sockets_are_correct_list (sockets_list : List bNodeSocket)
    (decls : List SocketDecl) : Bool :=
  NodeDecl.sockets_are_correct_loop sockets_list decls 0

/-- Method `NodeDecl::sockets_are_correct`. -/
def NodeDecl.sockets_are_correct {σ : Type} (self : NodeDecl) (node : bNode σ) : Bool :=
  if !NodeDecl.sockets_are_correct_list node.inputs self.m_inputs then false
  else if !NodeDecl.sockets_are_correct_list node.outputs self.m_outputs then false
  else true

/-! ## The socket data types of `init_socket_data_types` -/

/-- Global `data_socket_float` as `init_socket_data_types` sets it. -/
def data_socket_float : SocketDataType :=
  { m_ui_name := "Float", m_socket_type := nodeSocketTypeFind "MyFloatSocket",
    m_category := .Base }

/-- Global `data_socket_int` as `init_socket_data_types` sets it. -/
def data_socket_int : SocketDataType :=
  { m_ui_name := "Integer", m_socket_type := nodeSocketTypeFind "NodeSocketInt",
    m_category := .Base }

/-- Global `data_socket_float_list` as `init_socket_data_types` sets it. -/
def data_socket_float_list : SocketDataType :=
  { m_ui_name := "Float List", m_socket_type := nodeSocketTypeFind "NodeSocketFloatList",
    m_category := .List }

/-- Global `data_socket_int_list` as `init_socket_data_types` sets it. -/
def data_socket_int_list : SocketDataType :=
  { m_ui_name := "Integer List", m_socket_type := nodeSocketTypeFind "NodeSocketIntList",
    m_category := .List }

/-! ## Declaration builder -/

/-- Function template `get_node_storage`, release build: the storage pointer of the
node. -/
def get_node_storage {σ : Type} (node : bNode σ) : Option σ :=
  node.storage

/-- Class `NodeBuilder`: the declaration under construction. Its members are private and
the only part of the node `m_node_decl.m_node` that its interface hands out is the
storage pointer, so the builder keeps that pointer, `get_node_storage` of its node. -/
structure NodeBuilder (σ : Type) where
  m_node_storage : Option σ
  m_node_decl : NodeDecl

/-- Constructor `NodeBuilder::NodeBuilder` over a `NodeDecl` for `node`. -/
def NodeBuilder.new {σ : Type} (node : bNode σ) (node_decl : NodeDecl) : NodeBuilder σ :=
  { m_node_storage := get_node_storage node, m_node_decl := node_decl }

/-- Constructor `NodeDecl::NodeDecl`: no declarations yet. -/
def NodeDecl.new : NodeDecl :=
  { m_inputs := [], m_outputs := [] }

/-- Method `NodeBuilder::node_storage`. -/
def NodeBuilder.node_storage {σ : Type} (self : NodeBuilder σ) : Option σ :=
  self.m_node_storage

/-- Method `NodeBuilder::fixed_input`. -/
def NodeBuilder.fixed_input {σ : Type} (self : NodeBuilder σ) (identifier ui_name : String)
    (type : SocketDataType) : NodeBuilder σ :=
  let decl : FixedTypeSocketDecl :=
    { m_in_out := .SOCK_IN, m_type := type, m_ui_name := ui_name, m_identifier := identifier }
  { self with m_node_decl :=
      { self.m_node_decl with m_inputs := self.m_node_decl.m_inputs ++ [decl] } }

/-- Method `NodeBuilder::fixed_output`. -/
def NodeBuilder.fixed_output {σ : Type} (self : NodeBuilder σ) (identifier ui_name : String)
    (type : SocketDataType) : NodeBuilder σ :=
  let decl : FixedTypeSocketDecl :=
    { m_in_out := .SOCK_OUT, m_type := type, m_ui_name := ui_name, m_identifier := identifier }
  { self with m_node_decl :=
      { self.m_node_decl with m_outputs := self.m_node_decl.m_outputs ++ [decl] } }

/-- Method `NodeBuilder::float_input`. -/
def NodeBuilder.float_input {σ : Type} (self : NodeBuilder σ) (identifier ui_name : String) :
    NodeBuilder σ :=
  self.fixed_input identifier ui_name data_socket_float

/-- Method `NodeBuilder::int_input`. -/
def NodeBuilder.int_input {σ : Type} (self : NodeBuilder σ) (identifier ui_name : String) :
    NodeBuilder σ :=
  self.fixed_input identifier ui_name data_socket_int

/-- Method `NodeBuilder::float_output`. -/
def NodeBuilder.float_output {σ : Type} (self : NodeBuilder σ) (identifier ui_name : String) :
    NodeBuilder σ :=
  self.fixed_output identifier ui_name data_socket_float

/-- Method `NodeBuilder::int_output`. -/
def NodeBuilder.int_output {σ : Type} (self : NodeBuilder σ) (identifier ui_name : String) :
    NodeBuilder σ :=
  self.fixed_output identifier ui_name data_socket_int

/-! ## Node type definitions -/

/-- Class `NodeTypeDefinition`: the host record `m_ntype` and the callbacks that the
reconciliation and the storage lifecycle use. The copy-behavior callback returns the
updated destination node; the source node is `const`. -/
structure NodeTypeDefinition (σ : Type) where
  m_ntype : bNodeType
  m_declare_node_fn : NodeBuilder σ → NodeBuilder σ
  m_init_storage_fn : Unit → Option σ
  m_copy_storage_fn : Option σ → Option σ
  m_copy_node_fn : bNode σ → bNode σ → bNode σ

/-- Constructor `NodeTypeDefinition::NodeTypeDefinition`: the default callbacks. The
record is zeroed, so `storagename` is the empty string. -/
def NodeTypeDefinition.new {σ : Type} (idname _ui_name _ui_description : String) :
    NodeTypeDefinition σ :=
  { m_ntype := { idname := idname, storagename := "" }
    m_declare_node_fn := fun builder => builder
    m_init_storage_fn := fun _ => none
    m_copy_storage_fn := fun _storage => none
    m_copy_node_fn := fun dst_node _src_node => dst_node }

/-- Method `NodeTypeDefinition::add_declaration`. -/
def NodeTypeDefinition.add_declaration {σ : Type} (self : NodeTypeDefinition σ)
    (declare_fn : NodeBuilder σ → NodeBuilder σ) : NodeTypeDefinition σ :=
  { self with m_declare_node_fn := declare_fn }

/-- Method `NodeTypeDefinition::add_dna_storage` with explicit callbacks (the free
callback has no counterpart in a model by values). -/
def NodeTypeDefinition.add_dna_storage {σ : Type} (self : NodeTypeDefinition σ)
    (struct_name : String) (init_storage_fn : Unit → Option σ)
    (copy_storage_fn : Option σ → Option σ) : NodeTypeDefinition σ :=
  { self with
    m_ntype := { self.m_ntype with storagename := struct_name }
    m_init_storage_fn := init_storage_fn
    m_copy_storage_fn := copy_storage_fn }

/-- Method template `NodeTypeDefinition::add_dna_storage<T>`. `calloc` is the zeroed
buffer of `MEM_callocN`; the typed initialiser returns the buffer it has filled in. The
copy callback allocates a buffer and copies the bytes of the source into it, so the new
blob has the contents of the source; the C++ is undefined for a null source, which the
model keeps null. -/
def NodeTypeDefinition.add_dna_storage_typed {σ : Type} (self : NodeTypeDefinition σ)
    (struct_name : String) (calloc : σ) (init_storage_fn : σ → σ) : NodeTypeDefinition σ :=
  self.add_dna_storage struct_name
    (fun _ =>
      let buffer := calloc
      some (init_storage_fn buffer))
    (fun buffer =>
      match buffer with
      | some bytes => some bytes
      | none => none)

/-- Method `NodeTypeDefinition::add_copy_behavior`. -/
def NodeTypeDefinition.add_copy_behavior {σ : Type} (self : NodeTypeDefinition σ)
    (copy_fn : bNode σ → bNode σ → bNode σ) : NodeTypeDefinition σ :=
  { self with m_copy_node_fn := copy_fn }

/-- Method template `NodeTypeDefinition::add_copy_behavior<T>`: the typed callback
receives the two storages and returns the updated destination storage. It dereferences
both pointers; where one is null the model leaves the destination as it is. -/
def NodeTypeDefinition.add_copy_behavior_typed {σ : Type} (self : NodeTypeDefinition σ)
    (copy_fn : σ → σ → σ) : NodeTypeDefinition σ :=
  self.add_copy_behavior (fun dst_node src_node =>
    match get_node_storage dst_node, get_node_storage src_node with
    | some dst_storage, some src_storage =>
      { dst_node with storage := some (copy_fn dst_storage src_storage) }
    | _, _ => dst_node)

/-- Static method `NodeTypeDefinition::type_from_node`: `userdata` is the pointer from a
host node type back to its definition. -/
def NodeTypeDefinition.type_from_node {σ : Type} (userdata : bNodeType → NodeTypeDefinition σ)
    (node : bNode σ) : NodeTypeDefinition σ :=
  userdata node.typeinfo

/-- Static method `NodeTypeDefinition::declare_node`. -/
def NodeTypeDefinition.declare_node {σ : Type} (userdata : bNodeType → NodeTypeDefinition σ)
    (node : bNode σ) (builder : NodeBuilder σ) : NodeBuilder σ :=
  (NodeTypeDefinition.type_from_node userdata node).m_declare_node_fn builder

/-- Static method `NodeTypeDefinition::init_node`. The C++ builder refers to the node, so
the declare function reads the storage that the init callback has just produced. -/
def NodeTypeDefinition.init_node {σ : Type} (userdata : bNodeType → NodeTypeDefinition σ)
    (node : bNode σ) : bNode σ :=
  let type_def := NodeTypeDefinition.type_from_node userdata node
  let node := { node with storage := type_def.m_init_storage_fn () }
  let node_decl := NodeDecl.new
  let node_builder := NodeBuilder.new node node_decl
  let node_decl := (type_def.m_declare_node_fn node_builder).m_node_decl
  node_decl.build node

/-- Static method `NodeTypeDefinition::copy_node`: returns the updated destination
node. -/
def NodeTypeDefinition.copy_node {σ : Type} (userdata : bNodeType → NodeTypeDefinition σ)
    (dst_node src_node : bNode σ) : bNode σ :=
  let type_def := NodeTypeDefinition.type_from_node userdata dst_node
  let dst_node := { dst_node with storage := type_def.m_copy_storage_fn src_node.storage }
  type_def.m_copy_node_fn dst_node src_node

/-! ## Reconciliation driver -/

/-- One iteration of the loop of `update_sim_node_tree`: the node after the iteration
and the line it prints. -/
def update_sim_node {σ : Type} (userdata : bNodeType → NodeTypeDefinition σ)
    (node : bNode σ) : bNode σ × String :=
  let node_decl := NodeDecl.new
  let builder := NodeBuilder.new node node_decl
  let node_decl := (NodeTypeDefinition.declare_node userdata node builder).m_node_decl
  if !node_decl.sockets_are_correct node then
    let node := nodeRemoveAllSockets node
    (node_decl.build node, "Rebuild\n")
  else
    (node, "Don't rebuild\n")

/-- The loop of `update_sim_node_tree` over the collected nodes: the nodes after the
loop, in tree order, and the lines printed. -/
def update_sim_nodes {σ : Type} (userdata : bNodeType → NodeTypeDefinition σ) :
    List (bNode σ) → List (bNode σ) × List String
  | [] => ([], [])
  | node :: nodes =>
    let r := update_sim_node userdata node
    let rest := update_sim_nodes userdata nodes
    (r.1 :: rest.1, r.2 :: rest.2)

/-- Function `update_sim_node_tree`: the tree after the pass and the lines written to
the standard output. -/
def update_sim_node_tree {σ : Type} (userdata : bNodeType → NodeTypeDefinition σ)
    (ntree : bNodeTree σ) : bNodeTree σ × List String :=
  let r := update_sim_nodes userdata ntree.nodes
  ({ ntree with nodes := r.1 }, r.2)

/-! ## The registered test nodes -/

/-- DNA struct `MyTestNodeStorage`: the `int` field `x`. -/
structure MyTestNodeStorage where
  x : Int
  deriving DecidableEq, Repr

/-- The value an `int` holds after a result is stored in it: 32 bits, two's
complement. -/
def int_wrap (v : Int) : Int :=
  (v + 2 ^ 31) % 2 ^ 32 - 2 ^ 31

/-- Function `declare_test_node`. The loop runs for `i = 0, 1, ..` while `i < storage->x`.
The storage pointer is dereferenced; for a null pointer, outside the domain of the C++
function, the model declares the fixed sockets only. -/
def declare_test_node (builder : NodeBuilder MyTestNodeStorage) :
    NodeBuilder MyTestNodeStorage :=
  let storage := builder.node_storage
  let builder := builder.float_input "id1" "ID 1"
  let builder := builder.int_input "id2" "ID 2"
  let builder := builder.int_input "id4" "ID 4"
  let builder := builder.float_output "id3" "ID 3"
  match storage with
  | none => builder
  | some storage =>
    (List.range storage.x.toNat).foldl
      (fun b i => b.fixed_input ("id" ++ toString i) ("Hello " ++ toString i)
        data_socket_float_list)
      builder

/-- The definition that `register_node_type_my_test_node` registers as `MyTestNode`
(the draw callback is left out). -/
def my_test_node_type : NodeTypeDefinition MyTestNodeStorage :=
  let ntype : NodeTypeDefinition MyTestNodeStorage :=
    NodeTypeDefinition.new "MyTestNode" "My Test Node" "My Description"
  let ntype := ntype.add_declaration declare_test_node
  let ntype := ntype.add_dna_storage_typed "MyTestNodeStorage" { x := 0 }
    (fun storage => { storage with x := 3 })
  let ntype := ntype.add_copy_behavior_typed
    (fun dst_storage _src_storage => { dst_storage with x := int_wrap (dst_storage.x + 1) })
  ntype

/-- The definition that `register_node_type_my_test_node` registers as `MyTestNode2`
(the label callback is left out). -/
def my_test_node2_type {σ : Type} : NodeTypeDefinition σ :=
  let ntype : NodeTypeDefinition σ := NodeTypeDefinition.new "MyTestNode2" "Node 2" "Description"
  let ntype := ntype.add_declaration (fun node_builder =>
    let node_builder := node_builder.float_input "a" "A"
    let node_builder := node_builder.float_input "b" "B"
    let node_builder := node_builder.float_output "result" "Result"
    node_builder)
  ntype

/-- The `userdata` back pointers after `register_node_type_my_test_node`, on trees of
nodes whose storage is a `MyTestNodeStorage`: the host type `MyTestNode2` points to its
definition and the host type `MyTestNode` to its own. -/
def registered_userdata (ntype : bNodeType) : NodeTypeDefinition MyTestNodeStorage :=
  if ntype.idname = "MyTestNode2" then my_test_node2_type else my_test_node_type

/-! ## Reference definitions that follow the specification -/

/-- Reference definition of the validation of one declaration, in the words of the
specification: the slice has `count` sockets and every socket has the declared kind,
display name and identifier. -/
def SocketDeclAccepts (decl : SocketDecl) (actual : List bNodeSocket) : Prop :=
  actual.length = decl.amount ∧
    ∀ socket ∈ actual,
      socket.typeinfo = decl.m_type.m_socket_type ∧ socket.name = decl.m_ui_name ∧
        socket.identifier = decl.m_identifier

/-- Sum of the declared amounts. -/
def declared_amount (decls : List SocketDecl) : Nat :=
  (decls.map (fun decl => decl.amount)).sum

/-- Reference definition of the positional scan, in the words of the specification: the
declared amounts add up to the number of actual sockets, and every declaration accepts
the slice of `amount` sockets that starts at the sum of the amounts before it. -/
def PositionalReference (sockets : List bNodeSocket) (decls : List SocketDecl) : Prop :=
  declared_amount decls = sockets.length ∧
    ∀ (i : Nat) (h : i < decls.length),
      decls[i].sockets_are_correct
        ((sockets.drop (declared_amount (decls.take i))).take decls[i].amount) = true

instance (decl : SocketDecl) (actual : List bNodeSocket) :
    Decidable (SocketDeclAccepts decl actual) := by
  unfold SocketDeclAccepts; infer_instance

instance (sockets : List bNodeSocket) (decls : List SocketDecl) :
    Decidable (PositionalReference sockets decls) := by
  unfold PositionalReference; infer_instance

/-- The socket that a declaration describes: the declared direction, the socket kind
of the declared data type, the declared display name and identifier. -/
def declared_socket (decl : SocketDecl) : bNodeSocket :=
  { typeinfo := decl.m_type.m_socket_type, name := decl.m_ui_name,
    identifier := decl.m_identifier, in_out := decl.m_in_out }

/-- An actual socket is the one a declaration describes: same socket kind, display name
and identifier. -/
def SocketMatches (socket : bNodeSocket) (decl : SocketDecl) : Prop :=
  socket.typeinfo = decl.m_type.m_socket_type ∧ socket.name = decl.m_ui_name ∧
    socket.identifier = decl.m_identifier

/-- The socket list is, position by position, the list that the declarations describe:
same length, and at each position the socket matches the declaration. -/
def SocketsMatch (sockets : List bNodeSocket) (decls : List SocketDecl) : Prop :=
  List.Forall₂ SocketMatches sockets decls

/-- The input list of a declaration holds input declarations and its output list holds
output declarations, as `NodeBuilder::fixed_input` and `NodeBuilder::fixed_output`
construct them. -/
def NodeDecl.DirectionsAgree (decl : NodeDecl) : Prop :=
  (∀ d ∈ decl.m_inputs, d.m_in_out = eNodeSocketInOut.SOCK_IN) ∧
    ∀ d ∈ decl.m_outputs, d.m_in_out = eNodeSocketInOut.SOCK_OUT

instance (socket : bNodeSocket) (decl : SocketDecl) : Decidable (SocketMatches socket decl) := by
  unfold SocketMatches; infer_instance

instance (decl : NodeDecl) : Decidable decl.DirectionsAgree := by
  unfold NodeDecl.DirectionsAgree; infer_instance

/-- The declaration that the declare function of the node's type produces for the
node, as `update_sim_node_tree` computes it: a fresh `NodeDecl` filled in through a
fresh `NodeBuilder`. -/
def fresh_declaration {σ : Type} (userdata : bNodeType → NodeTypeDefinition σ)
    (node : bNode σ) : NodeDecl :=
  (NodeTypeDefinition.declare_node userdata node (NodeBuilder.new node NodeDecl.new)).m_node_decl

/-- The declare function of a node type declares through the builder: it adds input
declarations to the input list and output declarations to the output list, as
`NodeBuilder::fixed_input` and `NodeBuilder::fixed_output` do. -/
def NodeTypeDefinition.DeclaresThroughBuilder {σ : Type} (self : NodeTypeDefinition σ) :
    Prop :=
  ∀ builder : NodeBuilder σ, builder.m_node_decl.DirectionsAgree →
    (self.m_declare_node_fn builder).m_node_decl.DirectionsAgree

/-- A node of type `MyTestNode` without sockets and with storage field `x`. -/
def my_test_node (x : Int) : bNode MyTestNodeStorage :=
  { typeinfo := my_test_node_type.m_ntype, inputs := [], outputs := [],
    storage := some { x := x } }

/-- A tree of two `MyTestNode` nodes: one with `x = 2` that still has the sockets of an
older declaration, and one with `x = 1` without sockets. -/
def stale_tree : bNodeTree MyTestNodeStorage :=
  { nodes :=
      [{ my_test_node 2 with
          inputs := [⟨nodeSocketTypeFind "MyFloatSocket", "ID 1", "id1", .SOCK_IN⟩,
            ⟨nodeSocketTypeFind "NodeSocketInt", "Old", "old", .SOCK_IN⟩] },
        my_test_node 1] }

/-- A tree of one `MyTestNode` node with `x = 1` that has the sockets of its
declaration. -/
def valid_tree : bNodeTree MyTestNodeStorage :=
  { nodes :=
      [{ my_test_node 1 with
          inputs := [⟨nodeSocketTypeFind "MyFloatSocket", "ID 1", "id1", .SOCK_IN⟩,
            ⟨nodeSocketTypeFind "NodeSocketInt", "ID 2", "id2", .SOCK_IN⟩,
            ⟨nodeSocketTypeFind "NodeSocketInt", "ID 4", "id4", .SOCK_IN⟩,
            ⟨nodeSocketTypeFind "NodeSocketFloatList", "Hello 0", "id0", .SOCK_IN⟩],
          outputs := [⟨nodeSocketTypeFind "MyFloatSocket", "ID 3", "id3", .SOCK_OUT⟩] }] }

/-- The list of declarations with the entries at positions `i` and `j` exchanged (the
list itself when a position is outside it). -/
def swap_decls (decls : List SocketDecl) (i j : Nat) : List SocketDecl :=
  match decls[i]?, decls[j]? with
  | some a, some b => (decls.set i b).set j a
  | _, _ => decls

/-- The declared list of one side of a node declaration. -/
def NodeDecl.side_decls (self : NodeDecl) (side : eNodeSocketInOut) : List SocketDecl :=
  match side with
  | .SOCK_IN => self.m_inputs
  | .SOCK_OUT => self.m_outputs

/-- The node declaration with the entries at positions `i` and `j` of one side
exchanged. -/
def NodeDecl.swap (self : NodeDecl) (side : eNodeSocketInOut) (i j : Nat) : NodeDecl :=
  match side with
  | .SOCK_IN => { self with m_inputs := swap_decls self.m_inputs i j }
  | .SOCK_OUT => { self with m_outputs := swap_decls self.m_outputs i j }

/-- What the validation compares of a socket: its kind, display name and identifier. -/
def socket_signature (socket : bNodeSocket) : bNodeSocketType × String × String :=
  (socket.typeinfo, socket.name, socket.identifier)

/-- The test scenario: a `MyTestNode` node without sockets; for each value of the list
in turn, the storage field `x` is set to the value and `update_sim_node_tree` runs over
the tree that holds the node. The result is the node list of the last tree. -/
def test_scenario (xs : List Int) : List (bNode MyTestNodeStorage) :=
  xs.foldl
    (fun nodes x =>
      (update_sim_node_tree registered_userdata
        { nodes := nodes.map (fun n => { n with storage := some { x := x } }) }).1.nodes)
    [my_test_node 0]

/-- The identifiers of a list of declarations, in order. -/
def declared_identifiers (decls : List SocketDecl) : List String :=
  decls.map (fun decl => decl.m_identifier)

/-- A node of type `MyTestNode2` without sockets and without storage. -/
def my_test_node2 : bNode MyTestNodeStorage :=
  { typeinfo := (my_test_node2_type (σ := MyTestNodeStorage)).m_ntype, inputs := [],
    outputs := [], storage := none }

/-- A node of type `MyTestNode` as the host hands it to `init_node`: no sockets and a
null storage pointer. -/
def new_test_node : bNode MyTestNodeStorage :=
  { typeinfo := my_test_node_type.m_ntype, inputs := [], outputs := [], storage := none }

/-- The indices at which `FixedTypeSocketDecl::sockets_are_correct` reads its slice:
none when it returns at the size test, index `0` otherwise. -/
def FixedTypeSocketDecl.indexed (_self : FixedTypeSocketDecl) (sockets : List bNodeSocket) :
    List Nat :=
  if sockets.length ≠ 1 then [] else [0]

/-- The loop of the private `NodeDecl::sockets_are_correct (sockets_list, decls)` with a
record of what it reads: the result together with the `(offset, amount)` of every
`slice` it takes, in order. -/
def NodeDecl.sockets_are_correct_traced (sockets : List bNodeSocket) :
    List SocketDecl → Nat → Bool × List (Nat × Nat)
  | [], offset => (if offset ≠ sockets.length then false else true, [])
  | decl :: decls, offset =>
    let amount := decl.amount
    if offset + amount > sockets.length then (false, [])
    else
      let sockets_for_decl := (sockets.drop offset).take amount
      if !decl.sockets_are_correct sockets_for_decl then (false, [(offset, amount)])
      else
        let rest := NodeDecl.sockets_are_correct_traced sockets decls (offset + amount)
        (rest.1, (offset, amount) :: rest.2)

/-! ## The reconciliation pass on the shared tree -/

/-- A pointer `bNode *` into a tree: the position of the node in the node list of the
tree. -/
abbrev bNodePtr := Nat

/-- Modelled from the spec: the host operation `nodeAddSocket (ntree, node, ..)` with the
tree as the shared state it receives; section 6 of the specification describes it as
appending the new socket to the node. The node that the pointer addresses gets the
socket of `nodeAddSocket`. -/
def nodeAddSocket_ptr {σ : Type} (ntree : bNodeTree σ) (node : bNodePtr)
    (in_out : eNodeSocketInOut) (idname identifier name : String) : bNodeTree σ :=
  match ntree.nodes[node]? with
  | some n =>
    { ntree with
      nodes := ntree.nodes.set node (nodeAddSocket n in_out idname identifier name) }
  | none => ntree

/-- Modelled from the spec: the host operation `nodeRemoveAllSockets (ntree, node)` with
the tree as the shared state it receives; section 6 of the specification describes it
as removing all sockets from the node. -/
def nodeRemoveAllSockets_ptr {σ : Type} (ntree : bNodeTree σ) (node : bNodePtr) :
    bNodeTree σ :=
  match ntree.nodes[node]? with
  | some n => { ntree with nodes := ntree.nodes.set node (nodeRemoveAllSockets n) }
  | none => ntree

/-- Method `SocketDataType::build` on the references `ntree` and `node`. -/
def SocketDataType.build_ptr {σ : Type} (self : SocketDataType) (ntree : bNodeTree σ)
    (node : bNodePtr) (in_out : eNodeSocketInOut) (identifier ui_name : String) :
    bNodeTree σ :=
  nodeAddSocket_ptr ntree node in_out self.m_socket_type.idname identifier ui_name

/-- Method `FixedTypeSocketDecl::build` on the members `m_ntree` and `m_node`. -/
def FixedTypeSocketDecl.build_ptr {σ : Type} (self : FixedTypeSocketDecl)
    (m_ntree : bNodeTree σ) (m_node : bNodePtr) : bNodeTree σ :=
  self.m_type.build_ptr m_ntree m_node self.m_in_out self.m_identifier self.m_ui_name

/-- Method `NodeDecl::build` on the members `m_ntree` and `m_node`. -/
def NodeDecl.build_ptr {σ : Type} (self : NodeDecl) (m_ntree : bNodeTree σ)
    (m_node : bNodePtr) : bNodeTree σ :=
  let m_ntree := self.m_inputs.foldl (fun t decl => decl.build_ptr t m_node) m_ntree
  self.m_outputs.foldl (fun t decl => decl.build_ptr t m_node) m_ntree

/-- The strings that `NodeBuilder` copies into the allocator for a declaration: the ui
name and the identifier of every socket declaration. -/
def copied_strings (decl : NodeDecl) : List String :=
  (decl.m_inputs ++ decl.m_outputs).flatMap (fun d => [d.m_ui_name, d.m_identifier])

/-- What the loop of `update_sim_node_tree` shares between its iterations: the tree, the
`LinearAllocator` declared before the loop (the strings copied into it so far; nothing
reads them back) and the standard output. -/
structure PassState (σ : Type) where
  ntree : bNodeTree σ
  allocator : List String
  output : List String

/-- One iteration of the loop of `update_sim_node_tree`, for the node pointer `node`, on
the shared state. The declaration is made from the node that the pointer addresses and
validated against it; the host operations receive the tree and the pointer. A pointer
outside the tree does not occur (the pointers are collected from the tree); the model
skips it. -/
def update_sim_node_ptr {σ : Type} (userdata : bNodeType → NodeTypeDefinition σ)
    (state : PassState σ) (node : bNodePtr) : PassState σ :=
  match state.ntree.nodes[node]? with
  | none => state
  | some m_node =>
    let node_decl := NodeDecl.new
    let builder := NodeBuilder.new m_node node_decl
    let node_decl := (NodeTypeDefinition.declare_node userdata m_node builder).m_node_decl
    let allocator := state.allocator ++ copied_strings node_decl
    if !node_decl.sockets_are_correct m_node then
      let output := state.output ++ ["Rebuild\n"]
      let ntree := nodeRemoveAllSockets_ptr state.ntree node
      let ntree := node_decl.build_ptr ntree node
      { ntree := ntree, allocator := allocator, output := output }
    else
      { ntree := state.ntree, allocator := allocator,
        output := state.output ++ ["Don't rebuild\n"] }

/-- The loop of `update_sim_node_tree` on the shared state with the node pointers visited
in the given order. -/
def update_sim_nodes_ptr {σ : Type} (userdata : bNodeType → NodeTypeDefinition σ)
    (order : List bNodePtr) (state : PassState σ) : PassState σ :=
  order.foldl (fun st node => update_sim_node_ptr userdata st node) state

/-- Function `update_sim_node_tree` on the shared state: the pointers of the nodes are
collected in tree order, the allocator is new, and the loop runs over the collected
pointers. -/
def update_sim_node_tree_ptr {σ : Type} (userdata : bNodeType → NodeTypeDefinition σ)
    (ntree : bNodeTree σ) : PassState σ :=
  let nodes := List.range ntree.nodes.length
  let allocator : List String := []
  update_sim_nodes_ptr userdata nodes { ntree := ntree, allocator := allocator, output := [] }

/-! ## The catalog of data types -/

/-- A pointer `SocketDataType *`, modelled by the address of the object: two pointers are
equal when they point to the same object. -/
abbrev SocketDataTypePtr := Nat

/-- Modelled from the spec: the container method `Set::add_new` of `BLI_set.h` is not part
of the sources; the specification treats a duplicate registration as a fatal assertion,
so adding a value that the set already holds fails (`none`), and adding a new value
gives the set with that value added. The values of `Set<SocketDataType *>` are
pointers. -/
def Set_add_new (set : List SocketDataTypePtr) (value : SocketDataTypePtr) :
    Option (List SocketDataTypePtr) :=
  if value ∈ set then none else some (value :: set)

/-- Class `DataTypesInfo`: the set of registered data type pointers. -/
structure DataTypesInfo where
  m_data_types : List SocketDataTypePtr
  deriving DecidableEq, Repr

/-- Method `DataTypesInfo::add_data_type`; `none` is the failed assertion. -/
def DataTypesInfo.add_data_type (self : DataTypesInfo) (data_type : SocketDataTypePtr) :
    Option DataTypesInfo :=
  match Set_add_new self.m_data_types data_type with
  | none => none
  | some set => some { m_data_types := set }

/-- A heap with two data type objects of the same socket kind, at the addresses `0` and
`1`: the float data type and a list data type over the same socket kind. -/
def same_kind_heap (address : SocketDataTypePtr) : SocketDataType :=
  if address = 0 then data_socket_float
  else { m_ui_name := "Float List", m_socket_type := nodeSocketTypeFind "MyFloatSocket",
         m_category := .List }

/-! ## The debug check of the storage type -/

/-- C library function `strstr` on the characters of two strings: the rest of the
haystack from the first occurrence of the needle, or `none` for the null pointer when
the needle does not occur. -/
def strstr : List Char → List Char → Option (List Char)
  | [], needle => if needle.isPrefixOf [] then some [] else none
  | c :: cs, needle =>
    if needle.isPrefixOf (c :: cs) then some (c :: cs) else strstr cs needle

/-- Function template `get_node_storage` in a `DEBUG` build, for the requested type whose
`typeid(T).name()` is `type_name`: `none` is the failed assertion. -/
def get_node_storage_debug {σ : Type} (type_name : String) (node : bNode σ) :
    Option (Option σ) :=
  let expected_name := node.typeinfo.storagename
  if (strstr type_name.data expected_name.data).isNone then none
  else some node.storage

end SimNodes

/-! ## The line-art modifier: `MOD_gpencillineart.c` -/

namespace LineArt

/-- Modelled from the spec: the enumeration of the sync flag is not part of the sources;
section 6 of the specification describes a tri-state flag `Idle`, `Waiting`, `Fresh`. -/
inductive eLineartModifierSyncStatus where
  | LRT_SYNC_IDLE
  | LRT_SYNC_WAITING
  | LRT_SYNC_FRESH
  deriving DecidableEq, Repr

/-- Modelled from the spec: the shared line-art state is not part of the sources;
section 6 of the specification describes the sync flag and a separate
calculation-complete flag, here whether the calculation flag is `LRT_RENDER_FINISHED`. -/
structure LineartShared where
  sync_flag : eLineartModifierSyncStatus
  render_finished : Bool
  deriving DecidableEq, Repr

/-- Modelled from the spec: `ED_lineart_modifier_sync_flag_check` is not part of the
sources; it tells whether the sync flag has the given value. -/
def ED_lineart_modifier_sync_flag_check (shared : LineartShared)
    (flag : eLineartModifierSyncStatus) : Bool :=
  decide (shared.sync_flag = flag)

/-- Modelled from the spec: `ED_lineart_modifier_sync_set_flag` is not part of the
sources; it sets the sync flag to the given value. -/
def ED_lineart_modifier_sync_set_flag (shared : LineartShared)
    (flag : eLineartModifierSyncStatus) (_is_from_modifier : Bool) : LineartShared :=
  { shared with sync_flag := flag }

/-- Modelled from the spec: `ED_lineart_calculation_flag_check` is not part of the
sources; with `LRT_RENDER_FINISHED` it tells whether the calculation is complete. -/
def ED_lineart_calculation_flag_check_finished (shared : LineartShared) : Bool :=
  shared.render_finished

/-- What `generateStrokes` reads and writes: the shared flags, and the number of calls
made so far to `ED_lineart_post_frame_update_external`, to `generate_strokes_actual` and
to `WM_main_add_notifier`. -/
structure World where
  shared : LineartShared
  update_requests : Nat
  strokes_generated : Nat
  notifiers : Nat
  deriving DecidableEq, Repr

/-- The busy loop `while (!sync_flag_check(LRT_SYNC_FRESH) ||
!calculation_flag_check(LRT_RENDER_FINISHED))` of `generateStrokes`. The flags are written
by the calculation, outside this function: `env k` is the shared state that the
evaluation number `k` of the loop condition reads. The result is the state read by the
evaluation that ends the loop, `none` when the loop is still running after `fuel`
evaluations. -/
def wait_till_done (env : Nat → LineartShared) : Nat → Nat → Option LineartShared
  | 0, _ => none
  | fuel + 1, k =>
    let shared := env k
    if !ED_lineart_modifier_sync_flag_check shared .LRT_SYNC_FRESH ||
        !ED_lineart_calculation_flag_check_finished shared then
      wait_till_done env fuel (k + 1)
    else some shared

/-- The tail of `generateStrokes` after the gate: nothing when the target layer has no
active frame, else `generate_strokes_actual` and the notifier. -/
def grab_cache (actframe : Bool) (world : World) : World :=
  if !actframe then world
  else
    { world with
      strokes_generated := world.strokes_generated + 1
      notifiers := world.notifiers + 1 }

/-- Function `generateStrokes`. `is_render` is `DEG_get_mode(depsgraph) ==
DAG_EVAL_RENDER`, `actframe` tells whether the target layer has an active frame; the two
tests at the head read the sync flag as it is at the call. `none` means that a busy loop
is still running after `fuel` evaluations of its condition. -/
def generateStrokes (is_render actframe : Bool) (env : Nat → LineartShared) (fuel : Nat)
    (world : World) : Option World :=
  if ED_lineart_modifier_sync_flag_check world.shared .LRT_SYNC_IDLE then
    let world :=
      { world with
        shared := ED_lineart_modifier_sync_set_flag world.shared .LRT_SYNC_WAITING true }
    if is_render then
      let world := { world with update_requests := world.update_requests + 1 }
      match wait_till_done env fuel 0 with
      | none => none
      | some shared => some (grab_cache actframe { world with shared := shared })
    else some world
  else if ED_lineart_modifier_sync_flag_check world.shared .LRT_SYNC_WAITING then
    if is_render then
      match wait_till_done env fuel 0 with
      | none => none
      | some shared => some (grab_cache actframe { world with shared := shared })
    else some world
  else some (grab_cache actframe world)

/-- A world with the given flags in which nothing has been called yet. -/
def initial_world (sync_flag : eLineartModifierSyncStatus) (render_finished : Bool) : World :=
  { shared := { sync_flag := sync_flag, render_finished := render_finished },
    update_requests := 0, strokes_generated := 0, notifiers := 0 }

/-- An environment in which the calculation publishes `Fresh` and render-finished at
the third reading of the flags. -/
def finishing_env (k : Nat) : LineartShared :=
  if k < 2 then { sync_flag := .LRT_SYNC_WAITING, render_finished := false }
  else { sync_flag := .LRT_SYNC_FRESH, render_finished := true }

end LineArt

namespace SimNodes

/-! ## Validation of one declaration -/

theorem fixed_correct_iff (decl : FixedTypeSocketDecl) (sockets : List bNodeSocket) :
    decl.sockets_are_correct sockets = true ↔
      ∃ socket, sockets = [socket] ∧ socket.typeinfo = decl.m_type.m_socket_type ∧
        socket.name = decl.m_ui_name ∧ socket.identifier = decl.m_identifier := by
  unfold FixedTypeSocketDecl.sockets_are_correct
  match sockets with
  | [] => simp
  | [socket] =>
    simp only [List.length_singleton, ne_eq, not_true_eq_false, ↓reduceIte,
      List.getElem?_cons_zero, List.cons.injEq, and_true, exists_eq_left']
    by_cases h1 : socket.typeinfo = decl.m_type.m_socket_type
    · by_cases h2 : socket.name = decl.m_ui_name
      · by_cases h3 : socket.identifier = decl.m_identifier <;> simp [h1, h2, h3]
      · simp [h1, h2]
    · simp [h1]
  | _ :: _ :: _ => simp

/-- Claim C6. `FixedTypeSocketDecl::sockets_are_correct` returns true exactly when the
slice has as many sockets as the declaration's amount and every socket of the slice has
the socket kind of the declared data type, the declared ui name as its name and the
declared identifier. -/
theorem fixed_sockets_are_correct_iff_accepts (decl : FixedTypeSocketDecl)
    (sockets : List bNodeSocket) :
    decl.sockets_are_correct sockets = true ↔ SocketDeclAccepts decl sockets := by
  rw [fixed_correct_iff]
  unfold SocketDeclAccepts FixedTypeSocketDecl.amount
  constructor
  · rintro ⟨socket, rfl, h⟩
    simpa using h
  · rintro ⟨hlen, hall⟩
    obtain ⟨socket, rfl⟩ := List.length_eq_one.mp hlen
    exact ⟨socket, rfl, hall socket (by simp)⟩

/-! ## The positional scan -/

theorem declared_amount_nil : declared_amount [] = 0 := rfl

theorem declared_amount_cons (decl : SocketDecl) (decls : List SocketDecl) :
    declared_amount (decl :: decls) = decl.amount + declared_amount decls := by
  simp [declared_amount]

theorem declared_amount_append (ds es : List SocketDecl) :
    declared_amount (ds ++ es) = declared_amount ds + declared_amount es := by
  simp [declared_amount]

theorem declared_amount_eq_length (decls : List SocketDecl) :
    declared_amount decls = decls.length := by
  induction decls with
  | nil => rfl
  | cons decl decls ih => rw [declared_amount_cons, ih]; simp [FixedTypeSocketDecl.amount]; omega

/-- The loop started at `offset` succeeds exactly when the remaining amounts reach the
end of the socket list and every declaration accepts its slice. -/
theorem loop_iff (sockets : List bNodeSocket) (decls : List SocketDecl) (offset : Nat) :
    NodeDecl.sockets_are_correct_loop sockets decls offset = true ↔
      offset + declared_amount decls = sockets.length ∧
        ∀ (i : Nat) (h : i < decls.length),
          decls[i].sockets_are_correct
            ((sockets.drop (offset + declared_amount (decls.take i))).take
              decls[i].amount) = true := by
  induction decls generalizing offset with
  | nil => simp [NodeDecl.sockets_are_correct_loop, declared_amount_nil]
  | cons decl decls ih =>
    rw [NodeDecl.sockets_are_correct_loop]
    simp only [declared_amount_cons]
    by_cases hle : offset + decl.amount > sockets.length
    · simp only [hle, ↓reduceIte, Bool.false_eq_true, false_iff, not_and]
      intro h; omega
    · simp only [hle, ↓reduceIte]
      by_cases hd : decl.sockets_are_correct ((sockets.drop offset).take decl.amount) = true
      · simp only [hd, Bool.not_true, Bool.false_eq_true, ↓reduceIte, ih]
        constructor
        · rintro ⟨hsum, hall⟩
          refine ⟨by omega, ?_⟩
          intro i hi
          cases i with
          | zero => simpa [declared_amount_nil] using hd
          | succ j =>
            have := hall j (by simpa using hi)
            simpa [declared_amount_cons, Nat.add_assoc] using this
        · rintro ⟨hsum, hall⟩
          refine ⟨by omega, ?_⟩
          intro j hj
          have := hall (j + 1) (by simpa using hj)
          simpa [declared_amount_cons, Nat.add_assoc] using this
      · have hd2 : decl.sockets_are_correct ((sockets.drop offset).take decl.amount) = false := by
          simpa using hd
        simp only [hd2, Bool.not_false, ↓reduceIte, Bool.false_eq_true, false_iff, not_and]
        intro _ hall
        have := hall 0 (by simp)
        simp [declared_amount_nil, hd2] at this

theorem list_correct_iff (sockets : List bNodeSocket) (decls : List SocketDecl) :
    NodeDecl.sockets_are_correct_list sockets decls = true ↔
      PositionalReference sockets decls := by
  unfold NodeDecl.sockets_are_correct_list PositionalReference
  rw [loop_iff]
  simp

theorem node_correct_iff {σ : Type} (decl : NodeDecl) (node : bNode σ) :
    decl.sockets_are_correct node = true ↔
      NodeDecl.sockets_are_correct_list node.inputs decl.m_inputs = true ∧
        NodeDecl.sockets_are_correct_list node.outputs decl.m_outputs = true := by
  unfold NodeDecl.sockets_are_correct
  cases NodeDecl.sockets_are_correct_list node.inputs decl.m_inputs <;>
    cases NodeDecl.sockets_are_correct_list node.outputs decl.m_outputs <;> simp

/-- Claim C5. `NodeDecl::sockets_are_correct` is the positional reference definition on
the input side and, independently, on the output side; it returns false when a side has
sockets left over after the last declaration and when a side has fewer sockets than
declared. -/
theorem sockets_are_correct_eq_positional_reference {σ : Type} (decl : NodeDecl)
    (node : bNode σ) :
    (decl.sockets_are_correct node = true ↔
      PositionalReference node.inputs decl.m_inputs ∧
        PositionalReference node.outputs decl.m_outputs) ∧
    (declared_amount decl.m_inputs < node.inputs.length ∨
      declared_amount decl.m_outputs < node.outputs.length →
        decl.sockets_are_correct node = false) ∧
    (node.inputs.length < declared_amount decl.m_inputs ∨
      node.outputs.length < declared_amount decl.m_outputs →
        decl.sockets_are_correct node = false) := by
  have hiff : decl.sockets_are_correct node = true ↔
      PositionalReference node.inputs decl.m_inputs ∧
        PositionalReference node.outputs decl.m_outputs := by
    rw [node_correct_iff, list_correct_iff, list_correct_iff]
  refine ⟨hiff, ?_, ?_⟩
  · intro h
    rw [← Bool.not_eq_true, hiff]
    rintro ⟨⟨h1, _⟩, ⟨h2, _⟩⟩
    omega
  · intro h
    rw [← Bool.not_eq_true, hiff]
    rintro ⟨⟨h1, _⟩, ⟨h2, _⟩⟩
    omega

theorem loop_iff_socketsMatch (sockets : List bNodeSocket) (decls : List SocketDecl)
    (offset : Nat) (hoff : offset ≤ sockets.length) :
    NodeDecl.sockets_are_correct_loop sockets decls offset = true ↔
      SocketsMatch (sockets.drop offset) decls := by
  unfold SocketsMatch
  induction decls generalizing offset with
  | nil =>
    simp only [NodeDecl.sockets_are_correct_loop, List.forall₂_nil_right_iff,
      List.drop_eq_nil_iff]
    by_cases h : offset = sockets.length
    · simp [h]
    · simp only [ne_eq, h, not_false_eq_true, ↓reduceIte, Bool.false_eq_true, false_iff]
      omega
  | cons decl decls ih =>
    rw [NodeDecl.sockets_are_correct_loop]
    simp only [FixedTypeSocketDecl.amount]
    by_cases hlt : offset + 1 > sockets.length
    · have hnil : sockets.drop offset = [] := by
        rw [List.drop_eq_nil_iff]; omega
      simp [hlt, hnil]
    · have hlt2 : offset < sockets.length := by omega
      have hdrop : sockets.drop offset = sockets[offset] :: sockets.drop (offset + 1) :=
        List.drop_eq_getElem_cons hlt2
      simp only [hlt, ↓reduceIte, hdrop, List.take_succ_cons, List.take_zero,
        List.forall₂_cons]
      by_cases hd : decl.sockets_are_correct [sockets[offset]] = true
      · have hm : SocketMatches sockets[offset] decl := by
          have := (fixed_correct_iff decl [sockets[offset]]).mp hd
          obtain ⟨socket, hs, h⟩ := this
          have : sockets[offset] = socket := by simpa using hs
          rw [this]; exact h
        simp only [hd, Bool.not_true, Bool.false_eq_true, ↓reduceIte, hm, true_and]
        exact ih (offset + 1) (by omega)
      · have hm : ¬ SocketMatches sockets[offset] decl := by
          intro hm
          exact hd ((fixed_correct_iff decl [sockets[offset]]).mpr ⟨_, rfl, hm⟩)
        have hd2 : decl.sockets_are_correct [sockets[offset]] = false := by simpa using hd
        simp [hd2, hm]

theorem list_correct_iff_socketsMatch (sockets : List bNodeSocket) (decls : List SocketDecl) :
    NodeDecl.sockets_are_correct_list sockets decls = true ↔ SocketsMatch sockets decls := by
  unfold NodeDecl.sockets_are_correct_list
  rw [loop_iff_socketsMatch sockets decls 0 (Nat.zero_le _)]
  simp

theorem socketsMatch_declared (decls : List SocketDecl) :
    SocketsMatch (decls.map declared_socket) decls := by
  unfold SocketsMatch
  induction decls with
  | nil => exact List.Forall₂.nil
  | cons decl decls ih =>
    exact List.Forall₂.cons ⟨rfl, rfl, rfl⟩ ih

/-! ## Building the declared sockets -/

theorem fixed_build_in {σ : Type} (decl : FixedTypeSocketDecl) (node : bNode σ)
    (h : decl.m_in_out = eNodeSocketInOut.SOCK_IN) :
    decl.build node = { node with inputs := node.inputs ++ [declared_socket decl] } := by
  unfold FixedTypeSocketDecl.build SocketDataType.build nodeAddSocket declared_socket
    nodeSocketTypeFind
  simp [h]

theorem fixed_build_out {σ : Type} (decl : FixedTypeSocketDecl) (node : bNode σ)
    (h : decl.m_in_out = eNodeSocketInOut.SOCK_OUT) :
    decl.build node = { node with outputs := node.outputs ++ [declared_socket decl] } := by
  unfold FixedTypeSocketDecl.build SocketDataType.build nodeAddSocket declared_socket
    nodeSocketTypeFind
  simp [h]

theorem foldl_build_in {σ : Type} (decls : List SocketDecl) (node : bNode σ)
    (h : ∀ d ∈ decls, d.m_in_out = eNodeSocketInOut.SOCK_IN) :
    decls.foldl (fun n decl => decl.build n) node =
      { node with inputs := node.inputs ++ decls.map declared_socket } := by
  induction decls generalizing node with
  | nil => simp
  | cons decl decls ih =>
    rw [List.foldl_cons, fixed_build_in decl node (h decl (by simp)),
      ih _ (fun d hd => h d (by simp [hd]))]
    simp

theorem foldl_build_out {σ : Type} (decls : List SocketDecl) (node : bNode σ)
    (h : ∀ d ∈ decls, d.m_in_out = eNodeSocketInOut.SOCK_OUT) :
    decls.foldl (fun n decl => decl.build n) node =
      { node with outputs := node.outputs ++ decls.map declared_socket } := by
  induction decls generalizing node with
  | nil => simp
  | cons decl decls ih =>
    rw [List.foldl_cons, fixed_build_out decl node (h decl (by simp)),
      ih _ (fun d hd => h d (by simp [hd]))]
    simp

theorem build_eq {σ : Type} (decl : NodeDecl) (node : bNode σ) (h : decl.DirectionsAgree) :
    decl.build node =
      { node with
        inputs := node.inputs ++ decl.m_inputs.map declared_socket
        outputs := node.outputs ++ decl.m_outputs.map declared_socket } := by
  unfold NodeDecl.build
  simp only
  rw [foldl_build_in decl.m_inputs node h.1, foldl_build_out decl.m_outputs _ h.2]

/-- Claim C8. `NodeDecl::build` on a declaration whose input list holds input
declarations and whose output list holds output declarations appends to the inputs of
the node one socket per input declaration, in declaration order, and to the outputs one
socket per output declaration; each new socket has the declared direction, socket kind,
identifier and name; the sockets present before are kept as a prefix of each list, the
input loop leaves the outputs alone, and storage and type are untouched. -/
theorem build_postcondition {σ : Type} (decl : NodeDecl) (node : bNode σ)
    (h : decl.DirectionsAgree) :
    (decl.build node).inputs = node.inputs ++ decl.m_inputs.map declared_socket ∧
    (decl.build node).outputs = node.outputs ++ decl.m_outputs.map declared_socket ∧
    (decl.build node).inputs.length = node.inputs.length + declared_amount decl.m_inputs ∧
    (decl.build node).outputs.length = node.outputs.length + declared_amount decl.m_outputs ∧
    (∀ s ∈ decl.m_inputs.map declared_socket, s.in_out = eNodeSocketInOut.SOCK_IN) ∧
    (∀ s ∈ decl.m_outputs.map declared_socket, s.in_out = eNodeSocketInOut.SOCK_OUT) ∧
    (decl.m_inputs.foldl (fun n d => d.build n) node).outputs = node.outputs ∧
    (decl.build node).storage = node.storage ∧
    (decl.build node).typeinfo = node.typeinfo := by
  rw [build_eq decl node h, foldl_build_in decl.m_inputs node h.1]
  simp only [List.length_append, List.length_map, declared_amount_eq_length, List.mem_map,
    forall_exists_index, and_imp, forall_apply_eq_imp_iff₂, true_and]
  exact ⟨fun d hd => h.1 d hd, fun d hd => h.2 d hd, trivial⟩

/-- Witness of `build_postcondition`: a declaration of one float input and one float
output, built on a node that already has an input socket. -/
theorem build_postcondition_witness :
    (NodeDecl.build (σ := Unit)
        { m_inputs := [⟨.SOCK_IN, data_socket_float, "A", "a"⟩],
          m_outputs := [⟨.SOCK_OUT, data_socket_float, "R", "r"⟩] }
        { typeinfo := ⟨"T", ""⟩, inputs := [⟨⟨"K"⟩, "Old", "old", .SOCK_IN⟩], outputs := [],
          storage := none }).inputs =
      [⟨⟨"K"⟩, "Old", "old", .SOCK_IN⟩] ++
        [declared_socket ⟨.SOCK_IN, data_socket_float, "A", "a"⟩] :=
  (build_postcondition (σ := Unit)
    { m_inputs := [⟨.SOCK_IN, data_socket_float, "A", "a"⟩],
      m_outputs := [⟨.SOCK_OUT, data_socket_float, "R", "r"⟩] }
    { typeinfo := ⟨"T", ""⟩, inputs := [⟨⟨"K"⟩, "Old", "old", .SOCK_IN⟩], outputs := [],
      storage := none }
    (by decide)).1

theorem build_correct_of_empty {σ : Type} (decl : NodeDecl) (node : bNode σ)
    (h : decl.DirectionsAgree) (hin : node.inputs = []) (hout : node.outputs = []) :
    decl.sockets_are_correct (decl.build node) = true := by
  rw [node_correct_iff, list_correct_iff_socketsMatch, list_correct_iff_socketsMatch,
    build_eq decl node h, hin, hout]
  exact ⟨by simpa using socketsMatch_declared decl.m_inputs,
    by simpa using socketsMatch_declared decl.m_outputs⟩

/-- Claim C4. Round trip: on a node without sockets, `NodeDecl::build` followed by
`NodeDecl::sockets_are_correct` on the same declaration (input declarations in its
input list, output declarations in its output list) returns true. -/
theorem build_then_sockets_are_correct {σ : Type} (decl : NodeDecl) (node : bNode σ)
    (h : decl.DirectionsAgree) (hin : node.inputs = []) (hout : node.outputs = []) :
    decl.sockets_are_correct (decl.build node) = true :=
  build_correct_of_empty decl node h hin hout

/-- Witness of `build_then_sockets_are_correct`: two inputs of the same data type and
one output on a node without sockets. -/
theorem build_then_sockets_are_correct_witness :
    NodeDecl.sockets_are_correct
      { m_inputs := [⟨.SOCK_IN, data_socket_float, "A", "a"⟩,
          ⟨.SOCK_IN, data_socket_float, "B", "b"⟩],
        m_outputs := [⟨.SOCK_OUT, data_socket_int, "R", "r"⟩] }
      (NodeDecl.build (σ := Unit)
        { m_inputs := [⟨.SOCK_IN, data_socket_float, "A", "a"⟩,
            ⟨.SOCK_IN, data_socket_float, "B", "b"⟩],
          m_outputs := [⟨.SOCK_OUT, data_socket_int, "R", "r"⟩] }
        { typeinfo := ⟨"T", ""⟩, inputs := [], outputs := [], storage := none }) = true :=
  build_then_sockets_are_correct (σ := Unit)
    { m_inputs := [⟨.SOCK_IN, data_socket_float, "A", "a"⟩,
        ⟨.SOCK_IN, data_socket_float, "B", "b"⟩],
      m_outputs := [⟨.SOCK_OUT, data_socket_int, "R", "r"⟩] }
    { typeinfo := ⟨"T", ""⟩, inputs := [], outputs := [], storage := none }
    (by decide) rfl rfl

/-! ## The reconciliation pass -/

theorem update_sim_node_eq {σ : Type} (userdata : bNodeType → NodeTypeDefinition σ)
    (node : bNode σ) :
    update_sim_node userdata node =
      if (fresh_declaration userdata node).sockets_are_correct node = true then
        (node, "Don't rebuild\n")
      else
        ((fresh_declaration userdata node).build (nodeRemoveAllSockets node), "Rebuild\n") := by
  unfold update_sim_node fresh_declaration
  cases h : (NodeTypeDefinition.declare_node userdata node
    (NodeBuilder.new node NodeDecl.new)).m_node_decl.sockets_are_correct node <;> simp [h]

theorem fresh_declaration_congr {σ : Type} (userdata : bNodeType → NodeTypeDefinition σ)
    (node other : bNode σ) (ht : other.typeinfo = node.typeinfo)
    (hs : other.storage = node.storage) :
    fresh_declaration userdata other = fresh_declaration userdata node := by
  unfold fresh_declaration NodeTypeDefinition.declare_node NodeTypeDefinition.type_from_node
    NodeBuilder.new get_node_storage
  rw [ht, hs]

theorem fresh_declaration_directions {σ : Type} (userdata : bNodeType → NodeTypeDefinition σ)
    (node : bNode σ) (h : ∀ ntype, (userdata ntype).DeclaresThroughBuilder) :
    (fresh_declaration userdata node).DirectionsAgree := by
  unfold fresh_declaration NodeTypeDefinition.declare_node
  apply h
  simp [NodeBuilder.new, NodeDecl.new, NodeDecl.DirectionsAgree]

theorem update_sim_node_frame {σ : Type} (userdata : bNodeType → NodeTypeDefinition σ)
    (node : bNode σ) (h : ∀ ntype, (userdata ntype).DeclaresThroughBuilder) :
    (update_sim_node userdata node).1.typeinfo = node.typeinfo ∧
      (update_sim_node userdata node).1.storage = node.storage := by
  rw [update_sim_node_eq]
  split
  · exact ⟨rfl, rfl⟩
  · rw [build_eq _ _ (fresh_declaration_directions userdata node h)]
    exact ⟨rfl, rfl⟩

theorem update_sim_node_correct {σ : Type} (userdata : bNodeType → NodeTypeDefinition σ)
    (node : bNode σ) (h : ∀ ntype, (userdata ntype).DeclaresThroughBuilder) :
    (fresh_declaration userdata (update_sim_node userdata node).1).sockets_are_correct
      (update_sim_node userdata node).1 = true := by
  have hfr := update_sim_node_frame userdata node h
  rw [fresh_declaration_congr userdata node _ hfr.1 hfr.2, update_sim_node_eq]
  split
  · assumption
  · exact build_correct_of_empty _ _ (fresh_declaration_directions userdata node h) rfl rfl

theorem update_sim_nodes_fst {σ : Type} (userdata : bNodeType → NodeTypeDefinition σ)
    (nodes : List (bNode σ)) :
    (update_sim_nodes userdata nodes).1 = nodes.map (fun n => (update_sim_node userdata n).1) := by
  induction nodes with
  | nil => rfl
  | cons node nodes ih => simp [update_sim_nodes, ih]

theorem update_sim_nodes_snd {σ : Type} (userdata : bNodeType → NodeTypeDefinition σ)
    (nodes : List (bNode σ)) :
    (update_sim_nodes userdata nodes).2 = nodes.map (fun n => (update_sim_node userdata n).2) := by
  induction nodes with
  | nil => rfl
  | cons node nodes ih => simp [update_sim_nodes, ih]

theorem update_sim_node_idem {σ : Type} (userdata : bNodeType → NodeTypeDefinition σ)
    (node : bNode σ) (h : ∀ ntype, (userdata ntype).DeclaresThroughBuilder) :
    update_sim_node userdata (update_sim_node userdata node).1 =
      ((update_sim_node userdata node).1, "Don't rebuild\n") := by
  rw [update_sim_node_eq userdata (update_sim_node userdata node).1,
    if_pos (update_sim_node_correct userdata node h)]

theorem fixed_input_directions {σ : Type} (builder : NodeBuilder σ)
    (identifier ui_name : String) (type : SocketDataType)
    (h : builder.m_node_decl.DirectionsAgree) :
    (builder.fixed_input identifier ui_name type).m_node_decl.DirectionsAgree := by
  obtain ⟨hin, hout⟩ := h
  refine ⟨?_, hout⟩
  intro d hd
  simp only [NodeBuilder.fixed_input, List.mem_append, List.mem_singleton] at hd
  rcases hd with hd | rfl
  · exact hin d hd
  · rfl

theorem fixed_output_directions {σ : Type} (builder : NodeBuilder σ)
    (identifier ui_name : String) (type : SocketDataType)
    (h : builder.m_node_decl.DirectionsAgree) :
    (builder.fixed_output identifier ui_name type).m_node_decl.DirectionsAgree := by
  obtain ⟨hin, hout⟩ := h
  refine ⟨hin, ?_⟩
  intro d hd
  simp only [NodeBuilder.fixed_output, List.mem_append, List.mem_singleton] at hd
  rcases hd with hd | rfl
  · exact hout d hd
  · rfl

theorem foldl_fixed_input_directions {σ : Type} (is : List Nat) (f g : Nat → String)
    (type : SocketDataType) (builder : NodeBuilder σ)
    (h : builder.m_node_decl.DirectionsAgree) :
    (is.foldl (fun b i => b.fixed_input (f i) (g i) type) builder).m_node_decl.DirectionsAgree := by
  induction is generalizing builder with
  | nil => exact h
  | cons i is ih => exact ih _ (fixed_input_directions builder _ _ _ h)

theorem declare_test_node_directions (builder : NodeBuilder MyTestNodeStorage)
    (h : builder.m_node_decl.DirectionsAgree) :
    (declare_test_node builder).m_node_decl.DirectionsAgree := by
  have h4 : (((((builder.float_input "id1" "ID 1").int_input "id2" "ID 2").int_input
      "id4" "ID 4").float_output "id3" "ID 3")).m_node_decl.DirectionsAgree :=
    fixed_output_directions _ _ _ _ (fixed_input_directions _ _ _ _
      (fixed_input_directions _ _ _ _ (fixed_input_directions _ _ _ _ h)))
  unfold declare_test_node
  simp only
  split
  · exact h4
  · exact foldl_fixed_input_directions _ _ _ _ _ h4

theorem registered_declares_through_builder (ntype : bNodeType) :
    (registered_userdata ntype).DeclaresThroughBuilder := by
  unfold registered_userdata
  split
  · intro builder h
    exact fixed_output_directions _ _ _ _ (fixed_input_directions _ _ _ _
      (fixed_input_directions _ _ _ _ h))
  · intro builder h
    exact declare_test_node_directions builder h

/-- Claim C1. After `update_sim_node_tree` every node of the tree keeps its type and
storage, `NodeDecl::sockets_are_correct` of the declaration freshly produced from that
storage returns true on it, and its input list and output list match the declared lists
position by position, whatever sockets it had before. The declare functions declare
through the builder. -/
theorem update_sim_node_tree_reconciles {σ : Type}
    (userdata : bNodeType → NodeTypeDefinition σ) (ntree : bNodeTree σ)
    (h : ∀ ntype, (userdata ntype).DeclaresThroughBuilder) :
    List.Forall₂
      (fun before after =>
        after.typeinfo = before.typeinfo ∧ after.storage = before.storage ∧
          (fresh_declaration userdata after).sockets_are_correct after = true ∧
          SocketsMatch after.inputs (fresh_declaration userdata after).m_inputs ∧
          SocketsMatch after.outputs (fresh_declaration userdata after).m_outputs)
      ntree.nodes (update_sim_node_tree userdata ntree).1.nodes := by
  unfold update_sim_node_tree
  simp only [update_sim_nodes_fst, List.forall₂_map_right_iff, List.forall₂_same]
  intro node _
  have hfr := update_sim_node_frame userdata node h
  have hc := update_sim_node_correct userdata node h
  refine ⟨hfr.1, hfr.2, hc, ?_⟩
  rw [node_correct_iff, list_correct_iff_socketsMatch, list_correct_iff_socketsMatch] at hc
  exact hc

/-- Witness of `update_sim_node_tree_reconciles`: the pass over the tree with a stale
node of the registered test node type. -/
theorem update_sim_node_tree_reconciles_witness :
    List.Forall₂
      (fun before after =>
        after.typeinfo = before.typeinfo ∧ after.storage = before.storage ∧
          (fresh_declaration registered_userdata after).sockets_are_correct after = true ∧
          SocketsMatch after.inputs (fresh_declaration registered_userdata after).m_inputs ∧
          SocketsMatch after.outputs (fresh_declaration registered_userdata after).m_outputs)
      stale_tree.nodes (update_sim_node_tree registered_userdata stale_tree).1.nodes :=
  update_sim_node_tree_reconciles registered_userdata stale_tree
    registered_declares_through_builder

/-- Claim C2. Idempotence: a second `update_sim_node_tree` right after a first one
leaves the tree as the first pass left it (every node with the same input list, output
list and storage) and prints the line of the branch without rebuild once for every
node. The declare functions declare through the builder. -/
theorem update_sim_node_tree_idempotent {σ : Type}
    (userdata : bNodeType → NodeTypeDefinition σ) (ntree : bNodeTree σ)
    (h : ∀ ntype, (userdata ntype).DeclaresThroughBuilder) :
    update_sim_node_tree userdata (update_sim_node_tree userdata ntree).1 =
      ((update_sim_node_tree userdata ntree).1,
        List.replicate ntree.nodes.length "Don't rebuild\n") := by
  unfold update_sim_node_tree
  simp only [update_sim_nodes_fst, update_sim_nodes_snd, List.map_map]
  have hmap : ∀ nodes : List (bNode σ),
      List.map ((fun n => (update_sim_node userdata n).1) ∘
          fun n => (update_sim_node userdata n).1) nodes =
        List.map (fun n => (update_sim_node userdata n).1) nodes ∧
      List.map ((fun n => (update_sim_node userdata n).2) ∘
          fun n => (update_sim_node userdata n).1) nodes =
        List.replicate nodes.length "Don't rebuild\n" := by
    intro nodes
    induction nodes with
    | nil => exact ⟨rfl, rfl⟩
    | cons node nodes ih =>
      simp only [List.map_cons, Function.comp_apply, update_sim_node_idem userdata node h,
        ih.1, ih.2, List.length_cons, List.replicate_succ, and_self]
  rw [(hmap ntree.nodes).1, (hmap ntree.nodes).2]

/-- Witness of `update_sim_node_tree_idempotent`: two passes over the tree with a stale
node of the registered test node type. -/
theorem update_sim_node_tree_idempotent_witness :
    update_sim_node_tree registered_userdata
        (update_sim_node_tree registered_userdata stale_tree).1 =
      ((update_sim_node_tree registered_userdata stale_tree).1,
        List.replicate stale_tree.nodes.length "Don't rebuild\n") :=
  update_sim_node_tree_idempotent registered_userdata stale_tree
    registered_declares_through_builder

/-- Claim C3. A node whose sockets already validate against its fresh declaration is
not touched by `update_sim_node_tree`: at its position the tree after the pass holds the
very same node (input list, output list, storage), and the pass prints the line of the
branch without rebuild for it. -/
theorem update_sim_node_tree_valid_node_untouched {σ : Type}
    (userdata : bNodeType → NodeTypeDefinition σ) (ntree : bNodeTree σ) (i : Nat)
    (hi : i < ntree.nodes.length)
    (hv : (fresh_declaration userdata ntree.nodes[i]).sockets_are_correct ntree.nodes[i] = true) :
    (update_sim_node_tree userdata ntree).1.nodes[i]? = some ntree.nodes[i] ∧
      (update_sim_node_tree userdata ntree).2[i]? = some "Don't rebuild\n" := by
  unfold update_sim_node_tree
  simp only [update_sim_nodes_fst, update_sim_nodes_snd, List.getElem?_map,
    List.getElem?_eq_getElem hi, Option.map_some', update_sim_node_eq, hv, ↓reduceIte,
    and_self]

/-- Witness of `update_sim_node_tree_valid_node_untouched`: the node of `valid_tree`
validates and the pass returns it as it was. -/
theorem update_sim_node_tree_valid_node_untouched_witness :
    (update_sim_node_tree registered_userdata valid_tree).1.nodes[0]? =
        some (valid_tree.nodes[0]) ∧
      (update_sim_node_tree registered_userdata valid_tree).2[0]? = some "Don't rebuild\n" :=
  update_sim_node_tree_valid_node_untouched registered_userdata valid_tree 0 (by decide)
    (by decide)

/-! ## Positional sensitivity -/

theorem swap_decls_eq (decls : List SocketDecl) (i j : Nat) (hi : i < decls.length)
    (hj : j < decls.length) :
    swap_decls decls i j = (decls.set i decls[j]).set j decls[i] := by
  simp [swap_decls, List.getElem?_eq_getElem hi, List.getElem?_eq_getElem hj]

theorem swap_decls_perm (decls : List SocketDecl) (i j : Nat) (hi : i < decls.length)
    (hj : j < decls.length) (hne : i ≠ j) :
    (swap_decls decls i j).Perm decls := by
  rw [swap_decls_eq decls i j hi hj, List.perm_iff_count]
  intro d
  rw [List.count_set _ _ _ _ (by simpa using hj), List.count_set _ _ _ _ hi,
    List.getElem_set_ne hne]
  have h1 := List.boole_getElem_le_count d decls i hi
  have h2 := List.boole_getElem_le_count d decls j hj
  omega

theorem socketsMatch_swap_false (sockets : List bNodeSocket) (decls : List SocketDecl)
    (i j : Nat) (hi : i < decls.length) (hj : j < decls.length) (hne : i ≠ j)
    (hid : decls[i].m_identifier ≠ decls[j].m_identifier)
    (hm : SocketsMatch sockets decls) :
    ¬ SocketsMatch sockets (swap_decls decls i j) := by
  intro hs
  have hlen : sockets.length = decls.length := hm.length_eq
  have hsi : i < sockets.length := by omega
  have h1 := List.Forall₂.get hm hsi hi
  have hi2 : i < (swap_decls decls i j).length := by
    rw [swap_decls_eq decls i j hi hj]; simpa using hi
  have h2 := List.Forall₂.get hs hsi hi2
  have hget : (swap_decls decls i j).get ⟨i, hi2⟩ = decls[j] := by
    simp only [List.get_eq_getElem, swap_decls_eq decls i j hi hj]
    rw [List.getElem_set_ne (Ne.symm hne), List.getElem_set_self]
  rw [hget] at h2
  simp only [List.get_eq_getElem] at h1
  exact hid (h1.2.2.symm.trans h2.2.2)

/-- Claim C7. Positional sensitivity: when a node validates against a declaration and
two different positions of its input list (or of its output list) hold declarations of
the same data type with different identifiers, `NodeDecl::sockets_are_correct` returns
false on the same node for the declaration with those two entries exchanged, although
the exchanged list is a permutation of the original one. -/
theorem swap_breaks_sockets_are_correct {σ : Type} (decl : NodeDecl) (node : bNode σ)
    (side : eNodeSocketInOut) (i j : Nat)
    (hv : decl.sockets_are_correct node = true)
    (hi : i < (decl.side_decls side).length) (hj : j < (decl.side_decls side).length)
    (hne : i ≠ j)
    (_htype : (decl.side_decls side)[i].m_type = (decl.side_decls side)[j].m_type)
    (hid : (decl.side_decls side)[i].m_identifier ≠ (decl.side_decls side)[j].m_identifier) :
    (decl.swap side i j).sockets_are_correct node = false ∧
      ((decl.swap side i j).side_decls side).Perm (decl.side_decls side) := by
  rw [node_correct_iff, list_correct_iff_socketsMatch, list_correct_iff_socketsMatch] at hv
  rw [← Bool.not_eq_true, node_correct_iff, list_correct_iff_socketsMatch,
    list_correct_iff_socketsMatch]
  cases side with
  | SOCK_IN =>
    refine ⟨fun h => ?_, swap_decls_perm decl.m_inputs i j hi hj hne⟩
    exact socketsMatch_swap_false node.inputs decl.m_inputs i j hi hj hne hid hv.1 h.1
  | SOCK_OUT =>
    refine ⟨fun h => ?_, swap_decls_perm decl.m_outputs i j hi hj hne⟩
    exact socketsMatch_swap_false node.outputs decl.m_outputs i j hi hj hne hid hv.2 h.2

/-- Witness of `swap_breaks_sockets_are_correct`: the float inputs `a` and `b` of the
second test node, on a node that has exactly the declared sockets. -/
theorem swap_breaks_sockets_are_correct_witness :
    (NodeDecl.swap
        { m_inputs := [⟨.SOCK_IN, data_socket_float, "A", "a"⟩,
            ⟨.SOCK_IN, data_socket_float, "B", "b"⟩],
          m_outputs := [⟨.SOCK_OUT, data_socket_float, "Result", "result"⟩] }
        .SOCK_IN 0 1).sockets_are_correct
      ({ typeinfo := ⟨"MyTestNode2", ""⟩,
         inputs := [⟨nodeSocketTypeFind "MyFloatSocket", "A", "a", .SOCK_IN⟩,
           ⟨nodeSocketTypeFind "MyFloatSocket", "B", "b", .SOCK_IN⟩],
         outputs := [⟨nodeSocketTypeFind "MyFloatSocket", "Result", "result", .SOCK_OUT⟩],
         storage := none } : bNode Unit) = false :=
  (swap_breaks_sockets_are_correct
    { m_inputs := [⟨.SOCK_IN, data_socket_float, "A", "a"⟩,
        ⟨.SOCK_IN, data_socket_float, "B", "b"⟩],
      m_outputs := [⟨.SOCK_OUT, data_socket_float, "Result", "result"⟩] }
    ({ typeinfo := ⟨"MyTestNode2", ""⟩,
       inputs := [⟨nodeSocketTypeFind "MyFloatSocket", "A", "a", .SOCK_IN⟩,
         ⟨nodeSocketTypeFind "MyFloatSocket", "B", "b", .SOCK_IN⟩],
       outputs := [⟨nodeSocketTypeFind "MyFloatSocket", "Result", "result", .SOCK_OUT⟩],
       storage := none } : bNode Unit)
    .SOCK_IN 0 1 (by decide) (by decide) (by decide) (by decide) (by decide) (by decide)).1

/-! ## The test node -/

theorem foldl_fixed_input_decl {σ : Type} (is : List Nat) (f g : Nat → String)
    (type : SocketDataType) (builder : NodeBuilder σ) :
    (is.foldl (fun b i => b.fixed_input (f i) (g i) type) builder).m_node_decl =
      { m_inputs := builder.m_node_decl.m_inputs ++
          is.map (fun i => ⟨.SOCK_IN, type, g i, f i⟩),
        m_outputs := builder.m_node_decl.m_outputs } := by
  induction is generalizing builder with
  | nil => simp
  | cons i is ih =>
    rw [List.foldl_cons, ih]
    simp [NodeBuilder.fixed_input]

theorem fresh_declaration_test_node (node : bNode MyTestNodeStorage) (x : Int)
    (hty : node.typeinfo = my_test_node_type.m_ntype)
    (hst : node.storage = some { x := x }) :
    fresh_declaration registered_userdata node =
      { m_inputs :=
          [⟨.SOCK_IN, data_socket_float, "ID 1", "id1"⟩,
            ⟨.SOCK_IN, data_socket_int, "ID 2", "id2"⟩,
            ⟨.SOCK_IN, data_socket_int, "ID 4", "id4"⟩] ++
          (List.range x.toNat).map (fun i =>
            ⟨.SOCK_IN, data_socket_float_list, "Hello " ++ toString i, "id" ++ toString i⟩),
        m_outputs := [⟨.SOCK_OUT, data_socket_float, "ID 3", "id3"⟩] } := by
  have hud : registered_userdata node.typeinfo = my_test_node_type := by
    rw [hty]; rfl
  unfold fresh_declaration NodeTypeDefinition.declare_node NodeTypeDefinition.type_from_node
  rw [hud]
  show (declare_test_node (NodeBuilder.new node NodeDecl.new)).m_node_decl = _
  unfold declare_test_node
  simp only [NodeBuilder.node_storage, NodeBuilder.new, get_node_storage, hst]
  rw [foldl_fixed_input_decl]
  rfl

theorem socketsMatch_signature (sockets : List bNodeSocket) (decls : List SocketDecl)
    (h : SocketsMatch sockets decls) :
    sockets.map socket_signature =
      decls.map (fun d => (d.m_type.m_socket_type, d.m_ui_name, d.m_identifier)) := by
  unfold SocketsMatch at h
  induction h with
  | nil => rfl
  | cons hm _ ih =>
    obtain ⟨h1, h2, h3⟩ := hm
    simp [socket_signature, h1, h2, h3, ih]

/-- Claim C9. Data-dependent arity: for every value `x` of the storage field and every
prior socket state of a `MyTestNode` node in a tree, after `update_sim_node_tree` the
node has `3 + max x 0` inputs, namely `id1` (float), `id2` (int), `id4` (int) and then
the float-list inputs `id0 .. id{x-1}` named `Hello 0 .. Hello {x-1}`, and the single
output `id3` (float), and nothing else. With `x = 3` on a node without sockets the
inputs are `id1, id2, id4, id0, id1, id2`; a later pass with `x = 5` gives five list
inputs, and a later pass with `x = 0` leaves three inputs and one output. -/
theorem my_test_node_arity (x : Int) (ntree : bNodeTree MyTestNodeStorage) (i : Nat)
    (hi : i < ntree.nodes.length)
    (hty : ntree.nodes[i].typeinfo = my_test_node_type.m_ntype)
    (hst : ntree.nodes[i].storage = some { x := x }) :
    (∃ node, (update_sim_node_tree registered_userdata ntree).1.nodes[i]? = some node ∧
      node.storage = some { x := x } ∧
      node.inputs.map socket_signature =
        [(nodeSocketTypeFind "MyFloatSocket", "ID 1", "id1"),
          (nodeSocketTypeFind "NodeSocketInt", "ID 2", "id2"),
          (nodeSocketTypeFind "NodeSocketInt", "ID 4", "id4")] ++
        (List.range x.toNat).map (fun k =>
          (nodeSocketTypeFind "NodeSocketFloatList", "Hello " ++ toString k,
            "id" ++ toString k)) ∧
      node.outputs.map socket_signature = [(nodeSocketTypeFind "MyFloatSocket", "ID 3", "id3")] ∧
      (node.inputs.length : Int) = 3 + max x 0 ∧
      node.outputs.length = 1) ∧
    (test_scenario [3]).map (fun n => (n.inputs.map (fun s => s.identifier),
        n.outputs.map (fun s => s.identifier))) =
      [(["id1", "id2", "id4", "id0", "id1", "id2"], ["id3"])] ∧
    (test_scenario [3, 5]).map (fun n => (n.inputs.map (fun s => s.identifier),
        n.outputs.map (fun s => s.identifier))) =
      [(["id1", "id2", "id4", "id0", "id1", "id2", "id3", "id4"], ["id3"])] ∧
    (test_scenario [3, 5]).map (fun n =>
        (n.inputs.filter (fun s => s.typeinfo = nodeSocketTypeFind "NodeSocketFloatList")).length) =
      [5] ∧
    (test_scenario [3, 0]).map (fun n => (n.inputs.map (fun s => s.identifier),
        n.outputs.map (fun s => s.identifier))) =
      [(["id1", "id2", "id4"], ["id3"])] := by
  refine ⟨?_, by decide, by decide, by decide, by decide⟩
  refine ⟨(update_sim_node registered_userdata ntree.nodes[i]).1, ?_, ?_⟩
  · unfold update_sim_node_tree
    simp [update_sim_nodes_fst, List.getElem?_eq_getElem hi]
  · have hfr := update_sim_node_frame registered_userdata ntree.nodes[i]
      registered_declares_through_builder
    have hc := update_sim_node_correct registered_userdata ntree.nodes[i]
      registered_declares_through_builder
    rw [fresh_declaration_test_node _ x (hfr.1.trans hty) (hfr.2.trans hst), node_correct_iff,
      list_correct_iff_socketsMatch, list_correct_iff_socketsMatch] at hc
    have hin := socketsMatch_signature _ _ hc.1
    have hout := socketsMatch_signature _ _ hc.2
    have hlen := congrArg List.length hin
    have hlen2 := congrArg List.length hout
    simp only [List.length_map, List.length_append, List.length_range, List.length_cons,
      List.length_nil] at hlen hlen2
    refine ⟨hfr.2.trans hst, ?_, ?_, ?_, hlen2⟩
    · rw [hin]
      simp [data_socket_float, data_socket_int, data_socket_float_list, Function.comp_def]
    · rw [hout]
      simp [data_socket_float]
    · rw [hlen]
      omega

/-- Witness of `my_test_node_arity`: the node that a pass with `x = 3` has built, with
its storage changed to `x = 5`. -/
theorem my_test_node_arity_witness :
    ∃ node, (update_sim_node_tree registered_userdata
        { nodes := (test_scenario [3]).map (fun n => { n with storage := some { x := 5 } }) }
        ).1.nodes[0]? = some node ∧
      node.storage = some { x := 5 } ∧
      node.inputs.map socket_signature =
        [(nodeSocketTypeFind "MyFloatSocket", "ID 1", "id1"),
          (nodeSocketTypeFind "NodeSocketInt", "ID 2", "id2"),
          (nodeSocketTypeFind "NodeSocketInt", "ID 4", "id4")] ++
        (List.range (5 : Int).toNat).map (fun k =>
          (nodeSocketTypeFind "NodeSocketFloatList", "Hello " ++ toString k,
            "id" ++ toString k)) ∧
      node.outputs.map socket_signature = [(nodeSocketTypeFind "MyFloatSocket", "ID 3", "id3")] ∧
      (node.inputs.length : Int) = 3 + max 5 0 ∧
      node.outputs.length = 1 :=
  (my_test_node_arity 5
    { nodes := (test_scenario [3]).map (fun n => { n with storage := some { x := 5 } }) }
    0 (by decide) (by decide) (by decide)).1

/-! ## Storage on duplication -/

theorem copy_node_typed_storage {σ : Type} (userdata : bNodeType → NodeTypeDefinition σ)
    (base : NodeTypeDefinition σ) (struct_name : String) (calloc : σ) (init : σ → σ)
    (hook : bNode σ → bNode σ → bNode σ) (dst_node src_node : bNode σ)
    (h : userdata dst_node.typeinfo =
      (base.add_dna_storage_typed struct_name calloc init).add_copy_behavior hook) :
    NodeTypeDefinition.copy_node userdata dst_node src_node =
      hook { dst_node with storage := src_node.storage } src_node := by
  unfold NodeTypeDefinition.copy_node NodeTypeDefinition.type_from_node
  rw [h]
  simp only [NodeTypeDefinition.add_copy_behavior, NodeTypeDefinition.add_dna_storage_typed,
    NodeTypeDefinition.add_dna_storage]
  cases src_node.storage <;> rfl

theorem int_wrap_of_range (v : Int) (hlo : -2147483648 ≤ v) (hhi : v ≤ 2147483647) :
    int_wrap v = v := by
  unfold int_wrap
  omega

/-- Claim C10, as amended. `NodeTypeDefinition::copy_node` of a type registered with
typed storage runs the registered copy-behavior hook on the destination that already
holds a blob equal to the storage of the source, and on the source; with the
default hook of the constructor the storage of the duplicate is the storage of the
source; for `MyTestNode` and a source
value `x` of the `int` field below its largest value the duplicate has `x + 1` and keeps
the sockets and type of the destination. -/
theorem copy_node_storage_lifecycle :
    (∀ (σ : Type) (userdata : bNodeType → NodeTypeDefinition σ) (base : NodeTypeDefinition σ)
        (struct_name : String) (calloc : σ) (init : σ → σ)
        (hook : bNode σ → bNode σ → bNode σ) (dst_node src_node : bNode σ),
        userdata dst_node.typeinfo =
            (base.add_dna_storage_typed struct_name calloc init).add_copy_behavior hook →
          NodeTypeDefinition.copy_node userdata dst_node src_node =
            hook { dst_node with storage := src_node.storage } src_node) ∧
    (∀ (σ : Type) (userdata : bNodeType → NodeTypeDefinition σ) (base : NodeTypeDefinition σ)
        (idname ui_name ui_description struct_name : String) (calloc : σ) (init : σ → σ)
        (dst_node src_node : bNode σ),
        base.m_copy_node_fn =
            (NodeTypeDefinition.new idname ui_name ui_description).m_copy_node_fn →
        userdata dst_node.typeinfo = base.add_dna_storage_typed struct_name calloc init →
          NodeTypeDefinition.copy_node userdata dst_node src_node =
            { dst_node with storage := src_node.storage }) ∧
    (∀ (dst_node src_node : bNode MyTestNodeStorage) (x : Int),
        dst_node.typeinfo = my_test_node_type.m_ntype →
        src_node.storage = some { x := x } →
        -2147483648 ≤ x → x < 2147483647 →
          NodeTypeDefinition.copy_node registered_userdata dst_node src_node =
            { dst_node with storage := some { x := x + 1 } }) := by
  refine ⟨?_, ?_, ?_⟩
  · intro σ userdata base struct_name calloc init hook dst_node src_node h
    exact copy_node_typed_storage userdata base struct_name calloc init hook dst_node src_node h
  · intro σ userdata base idname ui_name ui_description struct_name calloc init dst_node
      src_node h0 h
    have h2 : userdata dst_node.typeinfo =
        (base.add_dna_storage_typed struct_name calloc init).add_copy_behavior
          (fun dst _ => dst) := by
      rw [h]
      simp only [NodeTypeDefinition.add_copy_behavior, NodeTypeDefinition.add_dna_storage_typed,
        NodeTypeDefinition.add_dna_storage]
      rw [← show base.m_copy_node_fn = fun dst _ => dst from h0]
    exact copy_node_typed_storage userdata base struct_name calloc init (fun dst _ => dst)
      dst_node src_node h2
  · intro dst_node src_node x hty hst hlo hhi
    have hud : registered_userdata dst_node.typeinfo = my_test_node_type := by
      rw [hty]; rfl
    have h := copy_node_typed_storage registered_userdata
      ((NodeTypeDefinition.new "MyTestNode" "My Test Node" "My Description").add_declaration
        declare_test_node)
      "MyTestNodeStorage" { x := 0 } (fun storage => { storage with x := 3 })
      my_test_node_type.m_copy_node_fn dst_node src_node hud
    rw [h]
    simp only [my_test_node_type, NodeTypeDefinition.add_copy_behavior_typed,
      NodeTypeDefinition.add_copy_behavior, get_node_storage, hst]
    rw [int_wrap_of_range (x + 1) (by omega) (by omega)]

/-- Witness of `copy_node_storage_lifecycle`: duplicating a `MyTestNode` node whose
storage field is `3` gives a node whose storage field is `4`. -/
theorem copy_node_storage_lifecycle_witness :
    NodeTypeDefinition.copy_node registered_userdata (my_test_node 0) (my_test_node 3) =
      { my_test_node 0 with storage := some { x := 3 + 1 } } :=
  copy_node_storage_lifecycle.2.2 (my_test_node 0) (my_test_node 3) 3 rfl rfl (by decide)
    (by decide)

/-- Counterexample to claim C10 as stated: for the source value `2147483647`, the
largest `int`, the storage field of the duplicate is not `2147483647 + 1`; the stored
`int` is `-2147483648`. -/
theorem copy_node_int_max_counterexample :
    (NodeTypeDefinition.copy_node registered_userdata (my_test_node 0)
        (my_test_node 2147483647)).storage ≠ some { x := 2147483647 + 1 } ∧
    (NodeTypeDefinition.copy_node registered_userdata (my_test_node 0)
        (my_test_node 2147483647)).storage = some { x := -2147483648 } := by
  decide

/-! ## Identifiers of the registered declarations -/

theorem fresh_declaration_test_node2 (node : bNode MyTestNodeStorage)
    (hty : node.typeinfo = (my_test_node2_type (σ := MyTestNodeStorage)).m_ntype) :
    fresh_declaration registered_userdata node =
      { m_inputs :=
          [⟨.SOCK_IN, data_socket_float, "A", "a"⟩, ⟨.SOCK_IN, data_socket_float, "B", "b"⟩],
        m_outputs := [⟨.SOCK_OUT, data_socket_float, "Result", "result"⟩] } := by
  have hud : registered_userdata node.typeinfo = my_test_node2_type := by
    rw [hty]; rfl
  unfold fresh_declaration NodeTypeDefinition.declare_node NodeTypeDefinition.type_from_node
  rw [hud]
  rfl

/-- Claim C11, as amended. The declaration that `declare_test_node` produces has
pairwise distinct identifiers in its input list exactly when the storage field `x` is at
most `1`, and always in its output list; the declaration of `MyTestNode2` has pairwise
distinct identifiers in both lists. -/
theorem declared_identifiers_distinct :
    (∀ (node : bNode MyTestNodeStorage) (x : Int),
        node.typeinfo = my_test_node_type.m_ntype → node.storage = some { x := x } →
          ((declared_identifiers (fresh_declaration registered_userdata node).m_inputs).Nodup ↔
              x ≤ 1) ∧
            (declared_identifiers (fresh_declaration registered_userdata node).m_outputs).Nodup) ∧
    (∀ node : bNode MyTestNodeStorage,
        node.typeinfo = (my_test_node2_type (σ := MyTestNodeStorage)).m_ntype →
          (declared_identifiers (fresh_declaration registered_userdata node).m_inputs).Nodup ∧
            (declared_identifiers (fresh_declaration registered_userdata node).m_outputs).Nodup) := by
  constructor
  · intro node x hty hst
    rw [fresh_declaration_test_node node x hty hst]
    have hout : (declared_identifiers [(⟨.SOCK_OUT, data_socket_float, "ID 3", "id3"⟩ :
        SocketDecl)]).Nodup := by decide
    refine ⟨?_, hout⟩
    constructor
    · intro hnd
      by_contra hx
      have h1 : 1 ∈ List.range x.toNat := by
        rw [List.mem_range]; omega
      have hmem : "id1" ∈ (List.range x.toNat).map (fun i => "id" ++ toString i) :=
        List.mem_map.mpr ⟨1, h1, by decide⟩
      simp only [declared_identifiers, List.map_append, List.map_cons, List.map_nil,
        List.map_map, Function.comp_def] at hnd
      have hdis := (List.nodup_append.mp hnd).2.2
      exact hdis (by simp) hmem
    · intro hx
      have h01 : x.toNat = 0 ∨ x.toNat = 1 := by omega
      rcases h01 with h | h <;> rw [h] <;> decide
  · intro node hty
    rw [fresh_declaration_test_node2 node hty]
    exact ⟨by decide, by decide⟩

/-- Witness of `declared_identifiers_distinct`: the test node with `x = 1` and the second
test node. -/
theorem declared_identifiers_distinct_witness :
    (((declared_identifiers (fresh_declaration registered_userdata (my_test_node 1)).m_inputs).Nodup ↔
        (1 : Int) ≤ 1) ∧
      (declared_identifiers (fresh_declaration registered_userdata (my_test_node 1)).m_outputs).Nodup) ∧
    ((declared_identifiers (fresh_declaration registered_userdata my_test_node2).m_inputs).Nodup ∧
      (declared_identifiers (fresh_declaration registered_userdata my_test_node2).m_outputs).Nodup) :=
  ⟨declared_identifiers_distinct.1 (my_test_node 1) 1 rfl rfl,
    declared_identifiers_distinct.2 my_test_node2 rfl⟩

/-- Counterexample to claim C11 as stated: for `x = 3` the input list declared by
`declare_test_node` has the identifiers `id1, id2, id4, id0, id1, id2`, which are not
pairwise distinct. -/
theorem declared_identifiers_x3_counterexample :
    declared_identifiers (fresh_declaration registered_userdata (my_test_node 3)).m_inputs =
        ["id1", "id2", "id4", "id0", "id1", "id2"] ∧
      ¬ (declared_identifiers
          (fresh_declaration registered_userdata (my_test_node 3)).m_inputs).Nodup := by
  decide

/-! ## Building on a node that has sockets -/

theorem fixed_build_total {σ : Type} (decl : FixedTypeSocketDecl) (node : bNode σ) :
    (decl.build node).inputs.length + (decl.build node).outputs.length =
      node.inputs.length + node.outputs.length + 1 := by
  unfold FixedTypeSocketDecl.build SocketDataType.build nodeAddSocket
  cases decl.m_in_out <;> simp <;> omega

theorem foldl_build_total {σ : Type} (decls : List SocketDecl) (node : bNode σ) :
    (decls.foldl (fun n decl => decl.build n) node).inputs.length +
        (decls.foldl (fun n decl => decl.build n) node).outputs.length =
      node.inputs.length + node.outputs.length + decls.length := by
  induction decls generalizing node with
  | nil => simp
  | cons decl decls ih =>
    rw [List.foldl_cons, ih, fixed_build_total]
    simp only [List.length_cons]
    omega

theorem build_total {σ : Type} (decl : NodeDecl) (node : bNode σ) :
    (decl.build node).inputs.length + (decl.build node).outputs.length =
      node.inputs.length + node.outputs.length + decl.m_inputs.length +
        decl.m_outputs.length := by
  unfold NodeDecl.build
  simp only
  rw [foldl_build_total, foldl_build_total]

/-- Claim C14. On a node that has an input socket or an output socket before the call,
`NodeDecl::sockets_are_correct` returns false right after `NodeDecl::build` of the same
declaration, for every declaration; `build` itself returns a node and reports
nothing. -/
theorem build_on_nonempty_node_invalid {σ : Type} (decl : NodeDecl) (node : bNode σ)
    (h : node.inputs ≠ [] ∨ node.outputs ≠ []) :
    decl.sockets_are_correct (decl.build node) = false := by
  rw [← Bool.not_eq_true, node_correct_iff, list_correct_iff_socketsMatch,
    list_correct_iff_socketsMatch]
  rintro ⟨hin, hout⟩
  have h1 := hin.length_eq
  have h2 := hout.length_eq
  have h3 := build_total decl node
  have h4 : 0 < node.inputs.length + node.outputs.length := by
    rcases h with h | h
    · have := List.length_pos.mpr h; omega
    · have := List.length_pos.mpr h; omega
  omega

/-- Witness of `build_on_nonempty_node_invalid`: the declaration of the second test node
built on a node that already has its input `a`. -/
theorem build_on_nonempty_node_invalid_witness :
    NodeDecl.sockets_are_correct
      { m_inputs := [⟨.SOCK_IN, data_socket_float, "A", "a"⟩],
        m_outputs := [⟨.SOCK_OUT, data_socket_float, "Result", "result"⟩] }
      (NodeDecl.build
        { m_inputs := [⟨.SOCK_IN, data_socket_float, "A", "a"⟩],
          m_outputs := [⟨.SOCK_OUT, data_socket_float, "Result", "result"⟩] }
        ({ typeinfo := ⟨"MyTestNode2", ""⟩,
           inputs := [⟨nodeSocketTypeFind "MyFloatSocket", "A", "a", .SOCK_IN⟩],
           outputs := [], storage := none } : bNode Unit)) = false :=
  build_on_nonempty_node_invalid
    { m_inputs := [⟨.SOCK_IN, data_socket_float, "A", "a"⟩],
      m_outputs := [⟨.SOCK_OUT, data_socket_float, "Result", "result"⟩] }
    ({ typeinfo := ⟨"MyTestNode2", ""⟩,
       inputs := [⟨nodeSocketTypeFind "MyFloatSocket", "A", "a", .SOCK_IN⟩],
       outputs := [], storage := none } : bNode Unit)
    (by decide)

/-! ## A freshly initialised node -/

theorem init_node_eq {σ : Type} (userdata : bNodeType → NodeTypeDefinition σ)
    (node : bNode σ) :
    NodeTypeDefinition.init_node userdata node =
      (fresh_declaration userdata
          { node with storage := (userdata node.typeinfo).m_init_storage_fn () }).build
        { node with storage := (userdata node.typeinfo).m_init_storage_fn () } := rfl

/-- Claim C17. After `NodeTypeDefinition::init_node` on a node without sockets, the node
has the storage that the init callback of its type produces, its sockets validate
against the declaration computed from that storage, and an `update_sim_node_tree` pass
over a tree holding it changes nothing and prints the line of the branch without
rebuild; a new `MyTestNode` node has `x = 3`, six inputs and one output. The declare
functions declare through the builder. -/
theorem init_node_reconciled {σ : Type} (userdata : bNodeType → NodeTypeDefinition σ)
    (node : bNode σ) (h : ∀ ntype, (userdata ntype).DeclaresThroughBuilder)
    (hin : node.inputs = []) (hout : node.outputs = []) :
    (NodeTypeDefinition.init_node userdata node).storage =
        (userdata node.typeinfo).m_init_storage_fn () ∧
    (NodeTypeDefinition.init_node userdata node).typeinfo = node.typeinfo ∧
    (fresh_declaration userdata (NodeTypeDefinition.init_node userdata node)).sockets_are_correct
        (NodeTypeDefinition.init_node userdata node) = true ∧
    update_sim_node_tree userdata { nodes := [NodeTypeDefinition.init_node userdata node] } =
      ({ nodes := [NodeTypeDefinition.init_node userdata node] }, ["Don't rebuild\n"]) ∧
    (NodeTypeDefinition.init_node registered_userdata new_test_node).storage =
        some { x := 3 } ∧
    (NodeTypeDefinition.init_node registered_userdata new_test_node).inputs.length = 6 ∧
    (NodeTypeDefinition.init_node registered_userdata new_test_node).outputs.length = 1 := by
  have hdir := fresh_declaration_directions userdata
    { node with storage := (userdata node.typeinfo).m_init_storage_fn () } h
  have hst : (NodeTypeDefinition.init_node userdata node).storage =
      (userdata node.typeinfo).m_init_storage_fn () := by
    rw [init_node_eq, build_eq _ _ hdir]
  have hty : (NodeTypeDefinition.init_node userdata node).typeinfo = node.typeinfo := by
    rw [init_node_eq, build_eq _ _ hdir]
  have hc : (fresh_declaration userdata
      (NodeTypeDefinition.init_node userdata node)).sockets_are_correct
        (NodeTypeDefinition.init_node userdata node) = true := by
    rw [fresh_declaration_congr userdata
      { node with storage := (userdata node.typeinfo).m_init_storage_fn () } _ hty hst,
      init_node_eq]
    exact build_correct_of_empty _ _ hdir hin hout
  refine ⟨hst, hty, hc, ?_, by decide, by decide, by decide⟩
  unfold update_sim_node_tree
  simp only [update_sim_nodes_fst, update_sim_nodes_snd, List.map_cons, List.map_nil,
    update_sim_node_eq, hc, ↓reduceIte]

/-- Witness of `init_node_reconciled`: a new node of the registered test node type. -/
theorem init_node_reconciled_witness :
    update_sim_node_tree registered_userdata
        { nodes := [NodeTypeDefinition.init_node registered_userdata new_test_node] } =
      ({ nodes := [NodeTypeDefinition.init_node registered_userdata new_test_node] },
        ["Don't rebuild\n"]) :=
  (init_node_reconciled registered_userdata new_test_node registered_declares_through_builder
    rfl rfl).2.2.2.1

/-! ## Bounds of the positional scan -/

theorem traced_result (sockets : List bNodeSocket) (decls : List SocketDecl) (offset : Nat) :
    (NodeDecl.sockets_are_correct_traced sockets decls offset).1 =
      NodeDecl.sockets_are_correct_loop sockets decls offset := by
  induction decls generalizing offset with
  | nil => rfl
  | cons decl decls ih =>
    rw [NodeDecl.sockets_are_correct_traced, NodeDecl.sockets_are_correct_loop]
    simp only
    split
    · rfl
    · split
      · rfl
      · exact ih _

theorem traced_slices_bound (sockets : List bNodeSocket) (decls : List SocketDecl)
    (offset : Nat) :
    ∀ p ∈ (NodeDecl.sockets_are_correct_traced sockets decls offset).2,
      offset ≤ p.1 ∧ p.1 + p.2 ≤ sockets.length := by
  induction decls generalizing offset with
  | nil => intro p hp; simp [NodeDecl.sockets_are_correct_traced] at hp
  | cons decl decls ih =>
    intro p hp
    rw [NodeDecl.sockets_are_correct_traced] at hp
    simp only at hp
    split at hp
    · simp at hp
    · rename_i hle
      split at hp
      · simp only [List.mem_singleton] at hp
        subst hp
        exact ⟨Nat.le_refl _, by simpa using hle⟩
      · simp only [List.mem_cons] at hp
        rcases hp with hp | hp
        · subst hp
          exact ⟨Nat.le_refl _, by simpa using hle⟩
        · have := ih _ p hp
          exact ⟨by omega, this.2⟩

theorem traced_slices_length (sockets : List bNodeSocket) (decls : List SocketDecl)
    (offset : Nat) :
    (NodeDecl.sockets_are_correct_traced sockets decls offset).2.length ≤ decls.length := by
  induction decls generalizing offset with
  | nil => simp [NodeDecl.sockets_are_correct_traced]
  | cons decl decls ih =>
    rw [NodeDecl.sockets_are_correct_traced]
    simp only
    split
    · simp
    · split
      · simp
      · have := ih (offset + decl.amount)
        simp only [List.length_cons]
        omega

/-- Claim C18. The positional scan stays inside the socket list: the traced scan returns
what `NodeDecl::sockets_are_correct` returns for the list, every slice `(offset, amount)`
it takes has `offset + amount` at most the number of sockets (so the running offset is
at most that number and the slice has exactly `amount` sockets), it takes at most one
slice per declaration, and `FixedTypeSocketDecl::sockets_are_correct` reads index `0`
only, of a slice of one socket. -/
theorem scan_within_bounds (sockets : List bNodeSocket) (decls : List SocketDecl) :
    (NodeDecl.sockets_are_correct_traced sockets decls 0).1 =
        NodeDecl.sockets_are_correct_list sockets decls ∧
    (∀ p ∈ (NodeDecl.sockets_are_correct_traced sockets decls 0).2,
        p.1 + p.2 ≤ sockets.length ∧ p.1 ≤ sockets.length ∧
          ((sockets.drop p.1).take p.2).length = p.2) ∧
    (NodeDecl.sockets_are_correct_traced sockets decls 0).2.length ≤ decls.length ∧
    (∀ (decl : FixedTypeSocketDecl) (slice : List bNodeSocket), ∀ i ∈ decl.indexed slice,
        i = 0 ∧ slice.length = 1 ∧ slice[i]?.isSome = true) := by
  refine ⟨traced_result sockets decls 0, ?_, traced_slices_length sockets decls 0, ?_⟩
  · intro p hp
    have h := traced_slices_bound sockets decls 0 p hp
    refine ⟨h.2, by omega, ?_⟩
    rw [List.length_take, List.length_drop]
    omega
  · intro decl slice i hi
    unfold FixedTypeSocketDecl.indexed at hi
    split at hi
    · simp at hi
    · rename_i hlen
      simp only [List.mem_singleton] at hi
      subst hi
      have hl : slice.length = 1 := by simpa using hlen
      refine ⟨rfl, hl, ?_⟩
      rw [List.getElem?_eq_getElem (by omega)]
      rfl

/-! ## Independence of the nodes in a pass -/

theorem getElem?_lt_of_some {α : Type} (l : List α) (i : Nat) (a : α) (h : l[i]? = some a) :
    i < l.length := by
  obtain ⟨hi, _⟩ := List.getElem?_eq_some.mp h
  exact hi

theorem set_self_of_getElem? {α : Type} (l : List α) (i : Nat) (a : α) (h : l[i]? = some a) :
    l.set i a = l := by
  apply List.ext_getElem?
  intro j
  by_cases hji : i = j
  · subst hji
    rw [List.getElem?_set_self (getElem?_lt_of_some l i a h), h]
  · rw [List.getElem?_set_ne hji]

theorem fixed_build_ptr_eq {σ : Type} (decl : FixedTypeSocketDecl) (ntree : bNodeTree σ)
    (i : bNodePtr) (n : bNode σ) (h : ntree.nodes[i]? = some n) :
    decl.build_ptr ntree i = { nodes := ntree.nodes.set i (decl.build n) } := by
  simp [FixedTypeSocketDecl.build_ptr, SocketDataType.build_ptr, nodeAddSocket_ptr, h,
    FixedTypeSocketDecl.build, SocketDataType.build]

theorem foldl_build_ptr_eq {σ : Type} (decls : List SocketDecl) (i : bNodePtr)
    (ntree : bNodeTree σ) (n : bNode σ) (h : ntree.nodes[i]? = some n) :
    decls.foldl (fun t decl => decl.build_ptr t i) ntree =
      { nodes := ntree.nodes.set i (decls.foldl (fun m decl => decl.build m) n) } := by
  induction decls generalizing ntree n with
  | nil =>
    simp only [List.foldl_nil]
    rw [set_self_of_getElem? ntree.nodes i n h]
  | cons decl decls ih =>
    rw [List.foldl_cons, List.foldl_cons, fixed_build_ptr_eq decl ntree i n h,
      ih { nodes := ntree.nodes.set i (decl.build n) } (decl.build n)
        (List.getElem?_set_self (getElem?_lt_of_some ntree.nodes i n h))]
    simp only [List.set_set]

theorem build_ptr_eq {σ : Type} (decl : NodeDecl) (i : bNodePtr) (ntree : bNodeTree σ)
    (n : bNode σ) (h : ntree.nodes[i]? = some n) :
    decl.build_ptr ntree i = { nodes := ntree.nodes.set i (decl.build n) } := by
  unfold NodeDecl.build_ptr NodeDecl.build
  simp only
  rw [foldl_build_ptr_eq decl.m_inputs i ntree n h,
    foldl_build_ptr_eq decl.m_outputs i _ _
      (List.getElem?_set_self (getElem?_lt_of_some ntree.nodes i n h))]
  simp only [List.set_set]

theorem update_sim_node_ptr_eq {σ : Type} (userdata : bNodeType → NodeTypeDefinition σ)
    (state : PassState σ) (i : bNodePtr) (n : bNode σ) (h : state.ntree.nodes[i]? = some n) :
    update_sim_node_ptr userdata state i =
      { ntree := { nodes := state.ntree.nodes.set i (update_sim_node userdata n).1 },
        allocator := state.allocator ++ copied_strings (fresh_declaration userdata n),
        output := state.output ++ [(update_sim_node userdata n).2] } := by
  have hi := getElem?_lt_of_some state.ntree.nodes i n h
  unfold update_sim_node_ptr
  rw [h, update_sim_node_eq]
  simp only
  by_cases hc : (fresh_declaration userdata n).sockets_are_correct n = true
  · have hc2 : (NodeTypeDefinition.declare_node userdata n
        (NodeBuilder.new n NodeDecl.new)).m_node_decl.sockets_are_correct n = true := hc
    simp only [hc2, Bool.not_true, Bool.false_eq_true, ↓reduceIte, hc]
    rw [set_self_of_getElem? state.ntree.nodes i n h]
    rfl
  · have hc2 : (NodeTypeDefinition.declare_node userdata n
        (NodeBuilder.new n NodeDecl.new)).m_node_decl.sockets_are_correct n = false := by
      simpa [fresh_declaration] using hc
    simp only [hc2, Bool.not_false, ↓reduceIte, hc]
    have hrem : nodeRemoveAllSockets_ptr state.ntree i =
        { nodes := state.ntree.nodes.set i (nodeRemoveAllSockets n) } := by
      simp [nodeRemoveAllSockets_ptr, h]
    rw [hrem, build_ptr_eq _ i _ (nodeRemoveAllSockets n) (List.getElem?_set_self hi)]
    simp only [List.set_set]
    rfl

theorem update_sim_node_ptr_getElem? {σ : Type} (userdata : bNodeType → NodeTypeDefinition σ)
    (state : PassState σ) (i j : Nat) :
    (update_sim_node_ptr userdata state i).ntree.nodes[j]? =
      if j = i then (state.ntree.nodes[j]?).map (fun n => (update_sim_node userdata n).1)
      else state.ntree.nodes[j]? := by
  cases h : state.ntree.nodes[i]? with
  | none =>
    have hst : update_sim_node_ptr userdata state i = state := by
      unfold update_sim_node_ptr; rw [h]
    rw [hst]
    by_cases hji : j = i
    · subst hji; simp [h]
    · simp [hji]
  | some n =>
    rw [update_sim_node_ptr_eq userdata state i n h]
    by_cases hji : j = i
    · subst hji
      simp [List.getElem?_set_self (getElem?_lt_of_some _ _ _ h), h]
    · simp [hji, List.getElem?_set_ne (Ne.symm hji)]

theorem update_sim_node_ptr_output {σ : Type} (userdata : bNodeType → NodeTypeDefinition σ)
    (state : PassState σ) (i : Nat) :
    (update_sim_node_ptr userdata state i).output =
      state.output ++
        ((state.ntree.nodes[i]?).map (fun n => (update_sim_node userdata n).2)).toList := by
  cases h : state.ntree.nodes[i]? with
  | none =>
    have hst : update_sim_node_ptr userdata state i = state := by
      unfold update_sim_node_ptr; rw [h]
    rw [hst]; simp
  | some n => rw [update_sim_node_ptr_eq userdata state i n h]; simp

theorem update_sim_nodes_ptr_spec {σ : Type} (userdata : bNodeType → NodeTypeDefinition σ)
    (order : List Nat) (hnd : order.Nodup) (state : PassState σ) :
    (∀ j, (update_sim_nodes_ptr userdata order state).ntree.nodes[j]? =
        if j ∈ order then (state.ntree.nodes[j]?).map (fun n => (update_sim_node userdata n).1)
        else state.ntree.nodes[j]?) ∧
    (update_sim_nodes_ptr userdata order state).output =
      state.output ++ order.filterMap (fun i =>
        (state.ntree.nodes[i]?).map (fun n => (update_sim_node userdata n).2)) := by
  unfold update_sim_nodes_ptr
  induction order generalizing state with
  | nil => simp
  | cons i order ih =>
    obtain ⟨hi, hnd2⟩ := List.nodup_cons.mp hnd
    obtain ⟨ih1, ih2⟩ := ih hnd2 (update_sim_node_ptr userdata state i)
    rw [List.foldl_cons]
    constructor
    · intro j
      rw [ih1 j, update_sim_node_ptr_getElem?]
      by_cases hji : j = i
      · subst hji
        simp [hi]
      · simp [hji]
    · rw [ih2, update_sim_node_ptr_output, List.filterMap_cons]
      have hcongr : order.filterMap (fun k =>
            ((update_sim_node_ptr userdata state i).ntree.nodes[k]?).map
              (fun n => (update_sim_node userdata n).2)) =
          order.filterMap (fun k =>
            (state.ntree.nodes[k]?).map (fun n => (update_sim_node userdata n).2)) := by
        apply List.filterMap_congr
        intro k hk
        have hki : k ≠ i := fun e => hi (e ▸ hk)
        rw [update_sim_node_ptr_getElem?, if_neg hki]
      rw [hcongr]
      cases state.ntree.nodes[i]? <;> simp

theorem filterMap_range_getElem? {α β : Type} (l : List α) (g : α → β) :
    (List.range l.length).filterMap (fun i => (l[i]?).map g) = l.map g := by
  induction l using List.reverseRecOn with
  | nil => rfl
  | append_singleton l a ih =>
    rw [List.length_append, List.length_singleton, List.range_succ, List.filterMap_append,
      List.map_append]
    have hcongr : (List.range l.length).filterMap (fun i => ((l ++ [a])[i]?).map g) =
        (List.range l.length).filterMap (fun i => (l[i]?).map g) := by
      apply List.filterMap_congr
      intro k hk
      rw [List.getElem?_append_left (List.mem_range.mp hk)]
    rw [hcongr, ih]
    simp

/-- Claim C12. Per-node independence of `update_sim_node_tree`, on the model in which
the iterations share the tree, the allocator and the output: the pass leaves the tree and
prints the lines of `update_sim_node_tree`; the node at each position of the resulting
tree is what the pass gives on the tree that holds that node alone; visiting the node
pointers in any order gives the same tree; the iteration for one node leaves the node at
every other position as it was, in every state; and what an iteration does to the tree
does not depend on the allocator or on the output so far. -/
theorem update_sim_node_tree_independent {σ : Type}
    (userdata : bNodeType → NodeTypeDefinition σ) (ntree : bNodeTree σ) (order : List bNodePtr)
    (horder : order.Perm (List.range ntree.nodes.length)) :
    (update_sim_node_tree_ptr userdata ntree).ntree = (update_sim_node_tree userdata ntree).1 ∧
    (update_sim_node_tree_ptr userdata ntree).output = (update_sim_node_tree userdata ntree).2 ∧
    (∀ (i : Nat) (hi : i < ntree.nodes.length),
        (update_sim_node_tree_ptr userdata ntree).ntree.nodes[i]? =
          (update_sim_node_tree_ptr userdata { nodes := [ntree.nodes[i]] }).ntree.nodes[0]?) ∧
    (update_sim_nodes_ptr userdata order
        { ntree := ntree, allocator := [], output := [] }).ntree =
      (update_sim_node_tree_ptr userdata ntree).ntree ∧
    (∀ (state : PassState σ) (i j : Nat), i ≠ j →
        (update_sim_node_ptr userdata state i).ntree.nodes[j]? = state.ntree.nodes[j]?) ∧
    (∀ (state : PassState σ) (allocator output : List String) (i : Nat),
        (update_sim_node_ptr userdata
            { state with allocator := allocator, output := output } i).ntree =
          (update_sim_node_ptr userdata state i).ntree) := by
  have htree : ∀ (t : bNodeTree σ) (ord : List Nat), ord.Perm (List.range t.nodes.length) →
      (update_sim_nodes_ptr userdata ord { ntree := t, allocator := [], output := [] }).ntree =
        (update_sim_node_tree userdata t).1 := by
    intro t ord hord
    have hnd : ord.Nodup := hord.nodup_iff.mpr (List.nodup_range _)
    have hspec := (update_sim_nodes_ptr_spec userdata ord hnd
      { ntree := t, allocator := [], output := [] }).1
    have hnodes : (update_sim_nodes_ptr userdata ord
        { ntree := t, allocator := [], output := [] }).ntree.nodes =
        t.nodes.map (fun n => (update_sim_node userdata n).1) := by
      apply List.ext_getElem?
      intro j
      rw [hspec j, List.getElem?_map]
      by_cases hj : j < t.nodes.length
      · have : j ∈ ord := hord.mem_iff.mpr (List.mem_range.mpr hj)
        simp [this]
      · have hnot : j ∉ ord := fun hm => hj (List.mem_range.mp (hord.mem_iff.mp hm))
        simp [hnot, List.getElem?_eq_none (Nat.le_of_not_lt hj)]
    unfold update_sim_node_tree
    simp only [update_sim_nodes_fst]
    rw [← hnodes]
  have hpass : ∀ t : bNodeTree σ,
      (update_sim_node_tree_ptr userdata t).ntree = (update_sim_node_tree userdata t).1 :=
    fun t => htree t (List.range t.nodes.length) (List.Perm.refl _)
  refine ⟨hpass ntree, ?_, ?_, ?_, ?_, ?_⟩
  · have hspec := (update_sim_nodes_ptr_spec userdata (List.range ntree.nodes.length)
      (List.nodup_range _) { ntree := ntree, allocator := [], output := [] }).2
    unfold update_sim_node_tree_ptr update_sim_node_tree
    simp only [update_sim_nodes_snd]
    rw [hspec, filterMap_range_getElem?]
    simp
  · intro i hi
    rw [hpass ntree, hpass { nodes := [ntree.nodes[i]] }]
    unfold update_sim_node_tree
    simp [update_sim_nodes_fst, List.getElem?_eq_getElem hi]
  · rw [htree ntree order horder, hpass ntree]
  · intro state i j hij
    rw [update_sim_node_ptr_getElem?, if_neg (Ne.symm hij)]
  · intro state allocator output i
    cases h : state.ntree.nodes[i]? with
    | none =>
      unfold update_sim_node_ptr
      simp only [h]
    | some n =>
      rw [update_sim_node_ptr_eq userdata state i n h,
        update_sim_node_ptr_eq userdata { state with allocator := allocator, output := output }
          i n h]

/-- Witness of `update_sim_node_tree_independent`: the tree with a stale node, visited
from the last node to the first. -/
theorem update_sim_node_tree_independent_witness :
    (update_sim_nodes_ptr registered_userdata [1, 0]
        { ntree := stale_tree, allocator := [], output := [] }).ntree =
      (update_sim_node_tree_ptr registered_userdata stale_tree).ntree :=
  (update_sim_node_tree_independent registered_userdata stale_tree [1, 0]
    (by decide)).2.2.2.1

/-! ## Registration in the catalog -/

/-- Claim C13, as amended. `DataTypesInfo::add_data_type` fails exactly when the very
same data type object (the same pointer) is already in the catalog, whatever the socket
kinds of the registered objects are; when it fails, a data type of the same socket kind
is registered; otherwise the catalog afterwards holds the previous entries and the new
one. The four registrations of `init_socket_data_types`, of four different objects,
succeed. -/
theorem add_data_type_fails_iff_same_object :
    (∀ (info : DataTypesInfo) (data_type : SocketDataTypePtr),
        (info.add_data_type data_type = none ↔ data_type ∈ info.m_data_types) ∧
        (data_type ∉ info.m_data_types →
          ∃ info2, info.add_data_type data_type = some info2 ∧
            ∀ q, q ∈ info2.m_data_types ↔ q = data_type ∨ q ∈ info.m_data_types)) ∧
    (∀ (heap : SocketDataTypePtr → SocketDataType) (info : DataTypesInfo)
        (data_type : SocketDataTypePtr),
        info.add_data_type data_type = none →
          ∃ q ∈ info.m_data_types,
            (heap q).m_socket_type = (heap data_type).m_socket_type) ∧
    ((((DataTypesInfo.add_data_type { m_data_types := [] } 0).bind
          (fun info => info.add_data_type 1)).bind
          (fun info => info.add_data_type 2)).bind
          (fun info => info.add_data_type 3)).isSome = true := by
  have hiff : ∀ (info : DataTypesInfo) (data_type : SocketDataTypePtr),
      info.add_data_type data_type = none ↔ data_type ∈ info.m_data_types := by
    intro info data_type
    unfold DataTypesInfo.add_data_type Set_add_new
    by_cases h : data_type ∈ info.m_data_types <;> simp [h]
  refine ⟨?_, ?_, by decide⟩
  · intro info data_type
    refine ⟨hiff info data_type, ?_⟩
    intro h
    refine ⟨{ m_data_types := data_type :: info.m_data_types }, ?_, ?_⟩
    · unfold DataTypesInfo.add_data_type Set_add_new
      simp [h]
    · intro q
      simp
  · intro heap info data_type h
    exact ⟨data_type, (hiff info data_type).mp h, rfl⟩

/-- Witness of `add_data_type_fails_iff_same_object`: registering the object at address
`0` a second time fails. -/
theorem add_data_type_fails_iff_same_object_witness :
    DataTypesInfo.add_data_type { m_data_types := [0] } 0 = none :=
  (add_data_type_fails_iff_same_object.1 { m_data_types := [0] } 0).1.mpr (by decide)

/-- Counterexample to claim C13 as stated: with the float data type registered,
registering another data type object of the same socket kind does not fail. -/
theorem add_data_type_same_kind_counterexample :
    (same_kind_heap 0).m_socket_type = (same_kind_heap 1).m_socket_type ∧
      0 ∈ (DataTypesInfo.mk [0]).m_data_types ∧
      DataTypesInfo.add_data_type { m_data_types := [0] } 1 =
        some { m_data_types := [1, 0] } := by
  decide

/-! ## The debug check of the storage type -/

theorem strstr_isSome_iff (haystack needle : List Char) :
    (strstr haystack needle).isSome = true ↔ needle <:+: haystack := by
  induction haystack with
  | nil =>
    cases needle with
    | nil => simp [strstr]
    | cons c cs => simp [strstr, List.isPrefixOf]
  | cons c cs ih =>
    rw [strstr, List.infix_cons_iff]
    by_cases hp : needle.isPrefixOf (c :: cs) = true
    · simp only [hp, ↓reduceIte, Option.isSome_some, true_iff]
      exact Or.inl (List.isPrefixOf_iff_prefix.mp hp)
    · have hnp : ¬ needle <+: c :: cs := fun h => hp (List.isPrefixOf_iff_prefix.mpr h)
      simp only [hp, Bool.false_eq_true, ↓reduceIte, ih, hnp, false_or]

/-- Claim C15, as amended. In a debug build `get_node_storage<T>` on a node of a kind
registered with storage fails its assertion exactly when the `storagename` of the kind
does not occur in the type name of `T`, and returns the storage of the node when it
occurs there, as it does for the registered type. -/
theorem get_node_storage_debug_fails_iff {σ : Type} (type_name : String) (node : bNode σ)
    (_hname : node.typeinfo.storagename ≠ "") :
    (get_node_storage_debug type_name node = none ↔
        ¬ node.typeinfo.storagename.data <:+: type_name.data) ∧
    (node.typeinfo.storagename.data <:+: type_name.data →
        get_node_storage_debug type_name node = some (get_node_storage node)) := by
  unfold get_node_storage_debug get_node_storage
  have h := strstr_isSome_iff type_name.data node.typeinfo.storagename.data
  cases hs : strstr type_name.data node.typeinfo.storagename.data with
  | none =>
    rw [hs] at h
    simp only [Option.isSome_none, Bool.false_eq_true, false_iff] at h
    simp [h, hs]
  | some rest =>
    rw [hs] at h
    simp only [Option.isSome_some, true_iff] at h
    simp [h, hs]

/-- Witness of `get_node_storage_debug_fails_iff`: the storage type of the test node,
requested on a test node. -/
theorem get_node_storage_debug_fails_iff_witness :
    get_node_storage_debug "17MyTestNodeStorage" (my_test_node 3) =
      some (get_node_storage (my_test_node 3)) :=
  (get_node_storage_debug_fails_iff "17MyTestNodeStorage" (my_test_node 3) (by decide)).2
    (by decide)

/-- Counterexample to claim C15 as stated: a requested type that is not the registered
storage type, but whose type name contains the `storagename` of the kind, passes the
assertion; and so does the storage type of the test node on a node of `MyTestNode2`, a
kind registered without storage. -/
theorem get_node_storage_debug_counterexample :
    (my_test_node 3).typeinfo.storagename = "MyTestNodeStorage" ∧
      get_node_storage_debug "19MyTestNodeStorageV2" (my_test_node 3) =
        some (some { x := 3 }) ∧
      my_test_node2.typeinfo.storagename = "" ∧
      get_node_storage_debug "17MyTestNodeStorage" my_test_node2 = some none := by
  decide

end SimNodes

namespace LineArt

/-! ## The sync gate of `generateStrokes` -/

theorem wait_till_done_some (env : Nat → LineartShared) (fuel k : Nat)
    (shared : LineartShared) (h : wait_till_done env fuel k = some shared) :
    shared.sync_flag = .LRT_SYNC_FRESH ∧ shared.render_finished = true ∧
      ∃ j, k ≤ j ∧ shared = env j := by
  induction fuel generalizing k with
  | zero => simp [wait_till_done] at h
  | succ fuel ih =>
    rw [wait_till_done] at h
    split at h
    · obtain ⟨h1, h2, j, hj, h3⟩ := ih (k + 1) h
      exact ⟨h1, h2, j, by omega, h3⟩
    · rename_i hc
      simp only [Option.some.injEq] at h
      subst h
      simp only [ED_lineart_modifier_sync_flag_check, ED_lineart_calculation_flag_check_finished,
        Bool.or_eq_true, Bool.not_eq_true', decide_eq_false_iff_not, not_or, Decidable.not_not,
        Bool.not_eq_false] at hc
      exact ⟨hc.1, hc.2, k, Nat.le_refl _, rfl⟩

theorem wait_till_done_terminates (env : Nat → LineartShared) (n k : Nat)
    (h : (env (k + n)).sync_flag = .LRT_SYNC_FRESH ∧ (env (k + n)).render_finished = true) :
    (wait_till_done env (n + 1) k).isSome = true := by
  induction n generalizing k with
  | zero =>
    have h0 : (env k).sync_flag = .LRT_SYNC_FRESH ∧ (env k).render_finished = true := by
      simpa using h
    simp [wait_till_done, ED_lineart_modifier_sync_flag_check,
      ED_lineart_calculation_flag_check_finished, h0.1, h0.2]
  | succ n ih =>
    rw [wait_till_done]
    split
    · exact ih (k + 1) (by rw [show k + 1 + n = k + (n + 1) by omega]; exact h)
    · rfl

/-- Claim C16, as amended. Outside a render evaluation `generateStrokes` with the sync
flag `Idle` sets it to `Waiting` and returns without generating strokes; with `Waiting`
it returns and changes nothing; it always returns, and it generates strokes exactly when
the sync flag is neither `Idle` nor `Waiting`, that is `Fresh`, and the target layer has
an active frame. In a render evaluation that starts with the sync flag `Idle` or
`Waiting` it returns only after its busy loop has read `Fresh` and render-finished, and
it does return once the calculation publishes them; with the sync flag `Fresh` at the
call it goes to the cache without reading the calculation flag. -/
theorem generateStrokes_gate (actframe : Bool) (env : Nat → LineartShared) (fuel : Nat)
    (world : World) :
    (world.shared.sync_flag = .LRT_SYNC_IDLE →
        generateStrokes false actframe env fuel world =
          some { world with shared := { world.shared with sync_flag := .LRT_SYNC_WAITING } }) ∧
    (world.shared.sync_flag = .LRT_SYNC_WAITING →
        generateStrokes false actframe env fuel world = some world) ∧
    (∃ after, generateStrokes false actframe env fuel world = some after ∧
        (after.strokes_generated = world.strokes_generated ∨
          after.strokes_generated = world.strokes_generated + 1) ∧
        (after.strokes_generated = world.strokes_generated + 1 ↔
          (world.shared.sync_flag ≠ .LRT_SYNC_IDLE ∧
            world.shared.sync_flag ≠ .LRT_SYNC_WAITING) ∧ actframe = true) ∧
        (after.strokes_generated = world.strokes_generated + 1 ↔
          world.shared.sync_flag = .LRT_SYNC_FRESH ∧ actframe = true)) ∧
    (world.shared.sync_flag ≠ .LRT_SYNC_FRESH →
        ∀ after, generateStrokes true actframe env fuel world = some after →
          after.shared.sync_flag = .LRT_SYNC_FRESH ∧ after.shared.render_finished = true) ∧
    (world.shared.sync_flag ≠ .LRT_SYNC_FRESH →
        ∀ n, (env n).sync_flag = .LRT_SYNC_FRESH ∧ (env n).render_finished = true →
          (generateStrokes true actframe env (n + 1) world).isSome = true) ∧
    (world.shared.sync_flag = .LRT_SYNC_FRESH →
        generateStrokes true actframe env fuel world = some (grab_cache actframe world)) := by
  obtain ⟨⟨sync, fin⟩, u, g, nt⟩ := world
  refine ⟨?_, ?_, ?_, ?_, ?_, ?_⟩
  · intro h
    simp only at h
    subst h
    simp [generateStrokes, ED_lineart_modifier_sync_flag_check,
      ED_lineart_modifier_sync_set_flag]
  · intro h
    simp only at h
    subst h
    simp [generateStrokes, ED_lineart_modifier_sync_flag_check]
  · cases sync <;> cases actframe <;>
      simp [generateStrokes, ED_lineart_modifier_sync_flag_check,
        ED_lineart_modifier_sync_set_flag, grab_cache]
  · intro hne after h
    cases sync with
    | LRT_SYNC_FRESH => exact absurd rfl hne
    | LRT_SYNC_IDLE =>
      simp only [generateStrokes, ED_lineart_modifier_sync_flag_check, decide_True,
        ↓reduceIte] at h
      cases hw : wait_till_done env fuel 0 with
      | none => rw [hw] at h; exact Option.noConfusion h
      | some shared =>
        rw [hw] at h
        simp only [Option.some.injEq] at h
        subst h
        have := wait_till_done_some env fuel 0 shared hw
        cases actframe <;> exact ⟨this.1, this.2.1⟩
    | LRT_SYNC_WAITING =>
      simp only [generateStrokes, ED_lineart_modifier_sync_flag_check, reduceCtorEq,
        decide_False, Bool.false_eq_true, ↓reduceIte, decide_True] at h
      cases hw : wait_till_done env fuel 0 with
      | none => rw [hw] at h; exact Option.noConfusion h
      | some shared =>
        rw [hw] at h
        simp only [Option.some.injEq] at h
        subst h
        have := wait_till_done_some env fuel 0 shared hw
        cases actframe <;> exact ⟨this.1, this.2.1⟩
  · intro hne n hn
    have hw := wait_till_done_terminates env n 0 (by simpa using hn)
    obtain ⟨shared, hs⟩ := Option.isSome_iff_exists.mp hw
    cases sync with
    | LRT_SYNC_FRESH => exact absurd rfl hne
    | LRT_SYNC_IDLE =>
      simp [generateStrokes, ED_lineart_modifier_sync_flag_check, hs]
    | LRT_SYNC_WAITING =>
      simp [generateStrokes, ED_lineart_modifier_sync_flag_check, hs]
  · intro h
    simp only at h
    subst h
    simp [generateStrokes, ED_lineart_modifier_sync_flag_check]

/-- Witness of `generateStrokes_gate`: a render evaluation that starts with the sync flag
`Waiting` and returns at the third reading of the flags, with strokes generated. -/
theorem generateStrokes_gate_witness :
    generateStrokes true true finishing_env 3 (initial_world .LRT_SYNC_WAITING false) =
        some { shared := { sync_flag := .LRT_SYNC_FRESH, render_finished := true },
               update_requests := 0, strokes_generated := 1, notifiers := 1 } ∧
      (generateStrokes true true finishing_env 3
        (initial_world .LRT_SYNC_WAITING false)).isSome = true :=
  ⟨by decide,
    (generateStrokes_gate true finishing_env 3 (initial_world .LRT_SYNC_WAITING false)).2.2.2.2.1
      (by decide) 2 (by decide)⟩

/-- Counterexample to claim C16 as stated: a render evaluation that is called with the
sync flag `Fresh` while the calculation flag is not render-finished generates strokes
at once. -/
theorem generateStrokes_render_fresh_counterexample :
    generateStrokes true true finishing_env 0 (initial_world .LRT_SYNC_FRESH false) =
      some { shared := { sync_flag := .LRT_SYNC_FRESH, render_finished := false },
             update_requests := 0, strokes_generated := 1, notifiers := 1 } := by
  decide

end LineArt
